import Mathlib

/-! # Store-creation request validation

A shallow embedding of the request validator of the backend service
(`pkg/store/service/service.go`, `pkg/store/validator/validator.go`,
`pkg/errors/error_handler.go`) together with theorems about it.

Go strings are embedded as Lean strings (the strings of a decoded request are
valid UTF-8); `len` is the UTF-8 byte length, as in Go.
The accumulator's `map[string]string` is embedded as an association list with
unique keys: `Add` overwrites the entry of a key already present and otherwise
appends a new entry.
-/

namespace StoreService

/-! ## Go standard-library functions used by the validator -/

/-- Go's builtin `len` on a string: the number of bytes of its UTF-8 encoding. -/
def len (s : String) : Nat := s.utf8ByteSize

/-- Go's `unicode.IsSpace`: the characters with the Unicode White_Space property. -/
def isSpace (c : Char) : Bool :=
  let n := c.toNat
  (9 ≤ n && n ≤ 13) || n == 32 || n == 0x85 || n == 0xA0 || n == 0x1680 ||
  (0x2000 ≤ n && n ≤ 0x200a) || n == 0x2028 || n == 0x2029 || n == 0x202f ||
  n == 0x205f || n == 0x3000

/-- Removal of trailing white space from a list of characters. -/
def dropTrailingSpace (l : List Char) : List Char :=
  (l.reverse.dropWhile isSpace).reverse

/-- Go's `strings.TrimSpace`: all leading and trailing white space removed. -/
def TrimSpace (s : String) : String :=
  ⟨dropTrailingSpace (s.data.dropWhile isSpace)⟩

/-- Go's `strings.HasPrefix`. -/
def HasPrefix (s pre : String) : Bool := pre.data.isPrefixOf s.data

/-! ## Regular expressions (the fragment of Go's `regexp` syntax the validator uses) -/

/-- Regular expressions: literals, character classes (lists of inclusive ranges),
concatenation, alternation, `?` and counted repetition `{min,max}`. -/
inductive Regex where
  | lit (c : Char)
  | cls (ranges : List (Char × Char))
  | cat (a b : Regex)
  | alt (a b : Regex)
  | opt (a : Regex)
  | rep (a : Regex) (min max : Nat)

/-- Membership of a character in a class given by inclusive ranges. -/
def inClass (ranges : List (Char × Char)) (c : Char) : Bool :=
  ranges.any fun r => r.1.toNat ≤ c.toNat && c.toNat ≤ r.2.toNat

/-- At most `n` rounds of a matcher; every number of rounds is explored. -/
def Regex.atMost (f : List Char → List (List Char)) : Nat → List Char → List (List Char)
  | 0, s => [s]
  | n + 1, s => (f s).flatMap (Regex.atMost f n) ++ [s]

/-- Counted repetition of a matcher: `min` mandatory rounds followed by at most
`extra` optional ones. -/
def Regex.iterate (f : List Char → List (List Char)) :
    Nat → Nat → List Char → List (List Char)
  | 0, extra, s => Regex.atMost f extra s
  | min + 1, extra, s => (f s).flatMap (Regex.iterate f min extra)

/-- All the ways a regular expression can match a prefix of the input: the list
of the remainders left after each possible match. -/
def Regex.run : Regex → List Char → List (List Char)
  | .lit c, s =>
    match s with
    | [] => []
    | d :: t => if d = c then [t] else []
  | .cls ranges, s =>
    match s with
    | [] => []
    | d :: t => if inClass ranges d then [t] else []
  | .cat a b, s => (a.run s).flatMap b.run
  | .alt a b, s => a.run s ++ b.run s
  | .opt a, s => a.run s ++ [s]
  | .rep a min max, s => Regex.iterate a.run min (max - min) s

/-- A compiled pattern (Go's `*regexp.Regexp`): a body, with or without the anchor
`^` in front of it and the anchor `$` behind it. -/
structure Regexp where
  anchoredStart : Bool
  body : Regex
  anchoredEnd : Bool

/-- Go's `(*Regexp).MatchString`: whether some substring of the text matches the
body. With `^` the match has to begin at the beginning of the text and with `$`
it has to end at the end of the text (without the multi-line flag, `$` matches
at the end of the text only, not before a final line break). -/
def Regexp.MatchString (re : Regexp) (s : String) : Bool :=
  let starts := if re.anchoredStart then [s.data] else s.data.tails
  starts.any fun u => (re.body.run u).any fun rest => !re.anchoredEnd || rest.isEmpty

/-- The class `\d` (ASCII digits). -/
def Regex.digit : Regex := .cls [('0', '9')]

/-! ## Numbers -/

/-- Modelled from the spec: the generated protobuf package `pkg/store/proto` is
not among the sources, so the numeric fields (coordinates, radius, amounts) are
given the values of an IEEE-754 double: a finite number, an infinity or NaN.
The validator only compares them with integer constants. -/
inductive Number where
  | fin (q : ℚ)
  | posInf
  | negInf
  | nan
  deriving DecidableEq

/-- Go's `<` on floating-point numbers (false whenever an operand is NaN). -/
def Number.lt : Number → Number → Bool
  | .nan, _ => false
  | _, .nan => false
  | .fin a, .fin b => decide (a < b)
  | .fin _, .posInf => true
  | .fin _, .negInf => false
  | .posInf, _ => false
  | .negInf, .negInf => false
  | .negInf, _ => true

/-- Go's `<=` on floating-point numbers (false whenever an operand is NaN). -/
def Number.le : Number → Number → Bool
  | .nan, _ => false
  | _, .nan => false
  | .fin a, .fin b => decide (a ≤ b)
  | .fin _, .posInf => true
  | .fin _, .negInf => false
  | .posInf, .posInf => true
  | .posInf, _ => false
  | .negInf, _ => true

/-- Go's `>`. -/
def Number.gt (a b : Number) : Bool := Number.lt b a

/-- An integer constant of the source, converted to the type of the field. -/
def Number.const (n : Int) : Number := .fin n

/-! ## The error accumulator (`pkg/store/validator/validator.go`) -/

/-- Assignment `m[k] = v` on a map kept as an association list with unique keys. -/
def mapSet : List (String × String) → String → String → List (String × String)
  | [], k, v => [(k, v)]
  | (k', v') :: rest, k, v =>
    if k' = k then (k, v) :: rest else (k', v') :: mapSet rest k v

/-- The accumulator of violations: a map from field path to message. -/
structure ValidationErrors where
  Errors : List (String × String)
  deriving DecidableEq, Repr

def NewValidationErrors : ValidationErrors := ⟨[]⟩

def ValidationErrors.Add (v : ValidationErrors) (field message : String) : ValidationErrors :=
  ⟨mapSet v.Errors field message⟩

def ValidationErrors.HasErrors (v : ValidationErrors) : Bool :=
  decide (v.Errors.length > 0)

def ValidationErrors.Error (_v : ValidationErrors) : String := "Validation failed."

/-- The field paths of a list of entries. -/
def pathsOf (entries : List (String × String)) : List String := entries.map Prod.fst

/-- The field paths that have an entry in the accumulator. -/
def ValidationErrors.paths (v : ValidationErrors) : List String := pathsOf v.Errors

/-- Whether the accumulator has an entry at a field path. -/
def ValidationErrors.has (v : ValidationErrors) (path : String) : Bool :=
  decide (path ∈ v.paths)

/-! ## The request (`pkg/store/proto`, generated code)

The generated protobuf package is not among the sources. The messages below
have the fields the validator reads, under the names it reads them by; a
sub-message that may be `nil` is an `Option`. -/

/-- Modelled from the spec: the message `BasicInformation` of `pkg/store/proto`. -/
structure BasicInformation where
  StoreName : String
  StoreType : String
  StoreImage : String
  ContactNumber : String
  IsManagerSameAsOwner : Bool
  ShopManagerId : String

/-- Modelled from the spec: the message of `pkg/store/proto` holding the GPS
coordinates of a location. -/
structure GPSCoordinates where
  Latitude : Number
  Longitude : Number

/-- Modelled from the spec: the message `Location` of `pkg/store/proto`. -/
structure Location where
  GpsCoordinates : Option GPSCoordinates
  Area : String
  City : String
  Pincode : String

/-- Modelled from the spec: the message `OperationalHours` of `pkg/store/proto`. -/
structure OperationalHours where
  IsOpen_24Hours : Bool
  OpeningTime : String
  ClosingTime : String
  IsOwnPickupEnabled : Bool
  OwnPickupReadyTime : String

/-- Modelled from the spec: the message `BankInformation` of `pkg/store/proto`. -/
structure BankInformation where
  AccountHolderName : String
  BankAccountNumber : String
  BankIfscCode : String

/-- Modelled from the spec: the message `TaxAndPayment` of `pkg/store/proto`. -/
structure TaxAndPayment where
  GstRegistered : Bool
  GstNumber : String
  IsPaymentGatewayEnabled : Bool
  BankInformation : Option BankInformation

/-- Modelled from the spec: the message `DeliveryConfiguration` of `pkg/store/proto`. -/
structure DeliveryConfiguration where
  IsDeliveryEnabled : Bool
  DeliveryLocationType : String
  DeliveryRadiusKm : Number
  DeliveryLocations : List String
  FreeDeliveryMinOrder : Number
  DeliveryFeeIfMinNotMet : Number

/-- Modelled from the spec: the message `CreateStoreRequest` of `pkg/store/proto`,
composed of the five sub-objects. -/
structure CreateStoreRequest where
  BasicInformation : Option BasicInformation
  Location : Option Location
  OperationalHours : Option OperationalHours
  TaxAndPayment : Option TaxAndPayment
  DeliveryConfiguration : Option DeliveryConfiguration

/-! ## Field rules (`pkg/store/service/service.go`) -/

def isValidURLOrBase64 (input : String) : Bool :=
  HasPrefix input "http" || decide (len input > 0)

/-- The pattern `^\+?[1-9]\d{1,14}$`. -/
def e164Pattern : Regexp where
  anchoredStart := true
  body := .cat (.opt (.lit '+')) (.cat (.cls [('1', '9')]) (.rep Regex.digit 1 14))
  anchoredEnd := true

def isValidE164 (phone : String) : Bool :=
  e164Pattern.MatchString phone

/-- The pattern `^(2[0-3]|[01]?[0-9]):([0-5]?[0-9])$`. -/
def timePattern : Regexp where
  anchoredStart := true
  body :=
    .cat (.alt (.cat (.lit '2') (.cls [('0', '3')]))
               (.cat (.opt (.cls [('0', '0'), ('1', '1')])) (.cls [('0', '9')])))
         (.cat (.lit ':') (.cat (.opt (.cls [('0', '5')])) (.cls [('0', '9')])))
  anchoredEnd := true

def isValidTimeFormat (timeStr : String) : Bool :=
  timePattern.MatchString timeStr

def isAllowedPickupReadyTime (input : String) : Bool :=
  let allowed := ["15 minutes", "30 minutes", "1 hour", "2 hours"]
  allowed.any fun v => decide (v = input)

/-! ## Section validators -/

def validateBasicInformation (basic : Option BasicInformation)
    (errors : ValidationErrors) : ValidationErrors :=
  match basic with
  | none => errors.Add "basic_information" "Basic information is required."
  | some basic =>
    let errors :=
      if len (TrimSpace basic.StoreName) = 0 then
        errors.Add "basic_information.store_name" "Store name is required."
      else if len basic.StoreName > 255 then
        errors.Add "basic_information.store_name" "Store name must be at most 255 characters."
      else errors
    let errors :=
      if len (TrimSpace basic.StoreType) = 0 then
        errors.Add "basic_information.store_type" "Store type is required."
      else errors
    let errors :=
      if basic.StoreImage ≠ "" ∧ !isValidURLOrBase64 basic.StoreImage then
        errors.Add "basic_information.store_image"
          "Store image must be a valid URL or base64 string."
      else errors
    let errors :=
      if len (TrimSpace basic.ContactNumber) = 0 then
        errors.Add "basic_information.contact_number" "Contact number is required."
      else if !isValidE164 basic.ContactNumber then
        errors.Add "basic_information.contact_number" "Contact number must be in E.164 format."
      else errors
    if !basic.IsManagerSameAsOwner ∧ len (TrimSpace basic.ShopManagerId) = 0 then
      errors.Add "basic_information.shop_manager_id"
        "Manager ID is required when not the same as owner."
    else errors

def validateLocation (location : Option Location)
    (errors : ValidationErrors) : ValidationErrors :=
  match location with
  | none => errors.Add "location" "Location is required."
  | some location =>
    let errors :=
      match location.GpsCoordinates with
      | none => errors.Add "location.gps_coordinates" "GPS coordinates are required."
      | some gps =>
        let errors :=
          if gps.Latitude.lt (Number.const (-90)) ∨ gps.Latitude.gt (Number.const 90) then
            errors.Add "location.gps_coordinates.latitude" "Latitude must be between -90 and 90."
          else errors
        if gps.Longitude.lt (Number.const (-180)) ∨ gps.Longitude.gt (Number.const 180) then
          errors.Add "location.gps_coordinates.longitude"
            "Longitude must be between -180 and 180."
        else errors
    let errors :=
      if len (TrimSpace location.Area) = 0 then
        errors.Add "location.area" "Area is required."
      else errors
    let errors :=
      if len (TrimSpace location.City) = 0 then
        errors.Add "location.city" "City is required."
      else errors
    if len (TrimSpace location.Pincode) = 0 then
      errors.Add "location.pincode" "Pincode is required."
    else errors

def validateOperationalHours (operationalHours : Option OperationalHours)
    (errors : ValidationErrors) : ValidationErrors :=
  match operationalHours with
  | none => errors.Add "operational_hours" "Operational hours are required."
  | some operationalHours =>
    let errors :=
      if !operationalHours.IsOpen_24Hours then
        let errors :=
          if len (TrimSpace operationalHours.OpeningTime) = 0 ∨
              !isValidTimeFormat operationalHours.OpeningTime then
            errors.Add "operational_hours.opening_time"
              "Opening time is required and must be in HH:MM format if the store is not open 24 hours."
          else errors
        if len (TrimSpace operationalHours.ClosingTime) = 0 ∨
            !isValidTimeFormat operationalHours.ClosingTime then
          errors.Add "operational_hours.closing_time"
            "Closing time is required and must be in HH:MM format if the store is not open 24 hours."
        else errors
      else errors
    if operationalHours.IsOwnPickupEnabled ∧
        !isAllowedPickupReadyTime operationalHours.OwnPickupReadyTime then
      errors.Add "operational_hours.own_pickup_ready_time"
        "Pickup ready time must be one of the allowed options: '15 minutes', '30 minutes', '1 hour', '2 hours'."
    else errors

def validateTaxAndPayment (taxAndPayment : Option TaxAndPayment)
    (errors : ValidationErrors) : ValidationErrors :=
  match taxAndPayment with
  | none => errors.Add "tax_and_payment" "Tax and payment information is required."
  | some taxAndPayment =>
    let errors :=
      if taxAndPayment.GstRegistered ∧ len (TrimSpace taxAndPayment.GstNumber) = 0 then
        errors.Add "tax_and_payment.gst_number"
          "GST number is required if the store is GST registered."
      else errors
    if taxAndPayment.IsPaymentGatewayEnabled then
      match taxAndPayment.BankInformation with
      | none =>
        errors.Add "tax_and_payment.bank_information"
          "Bank information is required if the payment gateway is enabled."
      | some bank =>
        let errors :=
          if len (TrimSpace bank.AccountHolderName) = 0 then
            errors.Add "tax_and_payment.bank_information.account_holder_name"
              "Account holder name is required in bank information."
          else errors
        let errors :=
          if len (TrimSpace bank.BankAccountNumber) = 0 then
            errors.Add "tax_and_payment.bank_information.bank_account_number"
              "Bank account number is required in bank information."
          else errors
        if len (TrimSpace bank.BankIfscCode) ≠ 11 then
          errors.Add "tax_and_payment.bank_information.bank_ifsc_code"
            "IFSC code must be exactly 11 characters in bank information."
        else errors
    else errors

def validateDeliveryConfiguration (delivery : Option DeliveryConfiguration)
    (errors : ValidationErrors) : ValidationErrors :=
  match delivery with
  | none => errors.Add "delivery_configuration" "Delivery configuration is required."
  | some delivery =>
    if delivery.IsDeliveryEnabled then
      let errors :=
        if delivery.DeliveryLocationType = "Radius" then
          if delivery.DeliveryRadiusKm.le (Number.const 0) then
            errors.Add "delivery_configuration.delivery_radius_km"
              "Delivery radius must be a positive number if delivery location type is 'Radius'."
          else errors
        else if delivery.DeliveryLocationType = "City" ∨
            delivery.DeliveryLocationType = "International" then
          if delivery.DeliveryLocations.length = 0 then
            errors.Add "delivery_configuration.delivery_locations"
              "Delivery locations must be provided if delivery location type is 'City' or 'International'."
          else errors
        else if delivery.DeliveryLocationType = "PAN India" then
          errors
        else
          errors.Add "delivery_configuration.delivery_location_type"
            "Delivery location type must be one of the allowed options: 'PAN India', 'City', 'Radius', 'International'."
      let errors :=
        if delivery.FreeDeliveryMinOrder.lt (Number.const 0) then
          errors.Add "delivery_configuration.free_delivery_min_order"
            "Minimum order amount for free delivery must be a positive number."
        else errors
      if delivery.DeliveryFeeIfMinNotMet.lt (Number.const 0) then
        errors.Add "delivery_configuration.delivery_fee_if_min_not_met"
          "Delivery fee must be a positive number."
      else errors
    else errors

/-! ## The orchestrator -/

def validateCreateStoreRequest (req : CreateStoreRequest) : Option ValidationErrors :=
  let errors := NewValidationErrors
  let errors := validateBasicInformation req.BasicInformation errors
  let errors := validateLocation req.Location errors
  let errors := validateOperationalHours req.OperationalHours errors
  let errors := validateTaxAndPayment req.TaxAndPayment errors
  let errors := validateDeliveryConfiguration req.DeliveryConfiguration errors
  if errors.HasErrors then some errors else none

/-- The violation map of a result of `validateCreateStoreRequest`, `nil` read as
the empty map. -/
def violations : Option ValidationErrors → List (String × String)
  | none => []
  | some v => v.Errors

/-! ## The violations of each section, as lists

The section validators report through the shared accumulator. The functions
below give, for each section, the list of the entries the validator records, in
the order of recording; `validateBasicInformation_eq` and its siblings show that
running a validator is adding exactly these entries. -/

/-- Adding a list of entries to the accumulator, one `Add` after the other. -/
def addAll (errors : ValidationErrors) (entries : List (String × String)) : ValidationErrors :=
  entries.foldl (fun e p => e.Add p.1 p.2) errors

/-- One entry when the condition holds, none otherwise. -/
def entryIf (c : Prop) [Decidable c] (path message : String) : List (String × String) :=
  if c then [(path, message)] else []

def basicInformationViolations : Option BasicInformation → List (String × String)
  | none => [("basic_information", "Basic information is required.")]
  | some basic =>
    (if len (TrimSpace basic.StoreName) = 0 then
        [("basic_information.store_name", "Store name is required.")]
      else entryIf (len basic.StoreName > 255)
        "basic_information.store_name" "Store name must be at most 255 characters.") ++
    entryIf (len (TrimSpace basic.StoreType) = 0)
      "basic_information.store_type" "Store type is required." ++
    entryIf (basic.StoreImage ≠ "" ∧ !isValidURLOrBase64 basic.StoreImage)
      "basic_information.store_image" "Store image must be a valid URL or base64 string." ++
    (if len (TrimSpace basic.ContactNumber) = 0 then
        [("basic_information.contact_number", "Contact number is required.")]
      else entryIf (!isValidE164 basic.ContactNumber)
        "basic_information.contact_number" "Contact number must be in E.164 format.") ++
    entryIf (!basic.IsManagerSameAsOwner ∧ len (TrimSpace basic.ShopManagerId) = 0)
      "basic_information.shop_manager_id" "Manager ID is required when not the same as owner."

def gpsViolations : Option GPSCoordinates → List (String × String)
  | none => [("location.gps_coordinates", "GPS coordinates are required.")]
  | some gps =>
    entryIf (gps.Latitude.lt (Number.const (-90)) ∨ gps.Latitude.gt (Number.const 90))
      "location.gps_coordinates.latitude" "Latitude must be between -90 and 90." ++
    entryIf (gps.Longitude.lt (Number.const (-180)) ∨ gps.Longitude.gt (Number.const 180))
      "location.gps_coordinates.longitude" "Longitude must be between -180 and 180."

def locationViolations : Option Location → List (String × String)
  | none => [("location", "Location is required.")]
  | some location =>
    gpsViolations location.GpsCoordinates ++
    entryIf (len (TrimSpace location.Area) = 0) "location.area" "Area is required." ++
    entryIf (len (TrimSpace location.City) = 0) "location.city" "City is required." ++
    entryIf (len (TrimSpace location.Pincode) = 0) "location.pincode" "Pincode is required."

def operationalHoursViolations : Option OperationalHours → List (String × String)
  | none => [("operational_hours", "Operational hours are required.")]
  | some operationalHours =>
    entryIf (operationalHours.IsOpen_24Hours = false ∧
        (len (TrimSpace operationalHours.OpeningTime) = 0 ∨
          !isValidTimeFormat operationalHours.OpeningTime))
      "operational_hours.opening_time"
      "Opening time is required and must be in HH:MM format if the store is not open 24 hours." ++
    entryIf (operationalHours.IsOpen_24Hours = false ∧
        (len (TrimSpace operationalHours.ClosingTime) = 0 ∨
          !isValidTimeFormat operationalHours.ClosingTime))
      "operational_hours.closing_time"
      "Closing time is required and must be in HH:MM format if the store is not open 24 hours." ++
    entryIf (operationalHours.IsOwnPickupEnabled ∧
        !isAllowedPickupReadyTime operationalHours.OwnPickupReadyTime)
      "operational_hours.own_pickup_ready_time"
      "Pickup ready time must be one of the allowed options: '15 minutes', '30 minutes', '1 hour', '2 hours'."

def bankInformationViolations : Option BankInformation → List (String × String)
  | none => [("tax_and_payment.bank_information",
      "Bank information is required if the payment gateway is enabled.")]
  | some bank =>
    entryIf (len (TrimSpace bank.AccountHolderName) = 0)
      "tax_and_payment.bank_information.account_holder_name"
      "Account holder name is required in bank information." ++
    entryIf (len (TrimSpace bank.BankAccountNumber) = 0)
      "tax_and_payment.bank_information.bank_account_number"
      "Bank account number is required in bank information." ++
    entryIf (len (TrimSpace bank.BankIfscCode) ≠ 11)
      "tax_and_payment.bank_information.bank_ifsc_code"
      "IFSC code must be exactly 11 characters in bank information."

def taxAndPaymentViolations : Option TaxAndPayment → List (String × String)
  | none => [("tax_and_payment", "Tax and payment information is required.")]
  | some taxAndPayment =>
    entryIf (taxAndPayment.GstRegistered ∧ len (TrimSpace taxAndPayment.GstNumber) = 0)
      "tax_and_payment.gst_number" "GST number is required if the store is GST registered." ++
    (if taxAndPayment.IsPaymentGatewayEnabled then
      bankInformationViolations taxAndPayment.BankInformation
    else [])

def deliveryTypeViolations (delivery : DeliveryConfiguration) : List (String × String) :=
  if delivery.DeliveryLocationType = "Radius" then
    entryIf (delivery.DeliveryRadiusKm.le (Number.const 0))
      "delivery_configuration.delivery_radius_km"
      "Delivery radius must be a positive number if delivery location type is 'Radius'."
  else if delivery.DeliveryLocationType = "City" ∨
      delivery.DeliveryLocationType = "International" then
    entryIf (delivery.DeliveryLocations.length = 0)
      "delivery_configuration.delivery_locations"
      "Delivery locations must be provided if delivery location type is 'City' or 'International'."
  else if delivery.DeliveryLocationType = "PAN India" then []
  else [("delivery_configuration.delivery_location_type",
    "Delivery location type must be one of the allowed options: 'PAN India', 'City', 'Radius', 'International'.")]

def deliveryConfigurationViolations : Option DeliveryConfiguration → List (String × String)
  | none => [("delivery_configuration", "Delivery configuration is required.")]
  | some delivery =>
    if delivery.IsDeliveryEnabled then
      deliveryTypeViolations delivery ++
      entryIf (delivery.FreeDeliveryMinOrder.lt (Number.const 0))
        "delivery_configuration.free_delivery_min_order"
        "Minimum order amount for free delivery must be a positive number." ++
      entryIf (delivery.DeliveryFeeIfMinNotMet.lt (Number.const 0))
        "delivery_configuration.delivery_fee_if_min_not_met"
        "Delivery fee must be a positive number."
    else []

/-! ## The formats in the words of the data model -/

/-- The E.164 shape: an optional single leading `+`, then a digit 1-9, then
between 1 and 14 further ASCII digits, and nothing else. -/
def isE164Shape (s : String) : Bool :=
  let digits :=
    match s.data with
    | [] => []
    | c :: t => if c = '+' then t else c :: t
  match digits with
  | [] => false
  | d :: rest =>
    decide ('1' ≤ d ∧ d ≤ '9') && decide (1 ≤ rest.length ∧ rest.length ≤ 14) &&
      rest.all Char.isDigit

/-- The value of a decimal digit. -/
def digitValue (c : Char) : Nat := c.toNat - '0'.toNat

/-- A one- or two-digit hour in 0..23. -/
def isHour : List Char → Bool
  | [h] => h.isDigit
  | [h1, h2] => h1.isDigit && h2.isDigit && decide (digitValue h1 * 10 + digitValue h2 ≤ 23)
  | _ => false

/-- A two-digit minute in 00..59. -/
def isTwoDigitMinute : List Char → Bool
  | [m1, m2] => m1.isDigit && m2.isDigit && decide (digitValue m1 * 10 + digitValue m2 ≤ 59)
  | _ => false

/-- A one- or two-digit minute in 0..59. -/
def isMinute : List Char → Bool
  | [m] => m.isDigit
  | [m1, m2] => m1.isDigit && m2.isDigit && decide (digitValue m1 * 10 + digitValue m2 ≤ 59)
  | _ => false

/-- The form `H:MM` or `HH:MM`: a one- or two-digit hour in 0..23, a colon and a
two-digit minute in 00..59. -/
def isHMM (s : String) : Bool :=
  match s.data with
  | [h, c, m1, m2] => isHour [h] && c == ':' && isTwoDigitMinute [m1, m2]
  | [h1, h2, c, m1, m2] => isHour [h1, h2] && c == ':' && isTwoDigitMinute [m1, m2]
  | _ => false

/-- A time of day whose minute may have one digit: a one- or two-digit hour in
0..23, a colon and a one- or two-digit minute in 0..59. -/
def isTimeOfDay (s : String) : Bool :=
  match s.data with
  | [h, c, m] => isHour [h] && c == ':' && isMinute [m]
  | [a, b, c, d] =>
    (isHour [a] && b == ':' && isMinute [c, d]) || (isHour [a, b] && c == ':' && isMinute [d])
  | [h1, h2, c, m1, m2] => isHour [h1, h2] && c == ':' && isMinute [m1, m2]
  | _ => false

/-! ## The sections of a request -/

/-- The five sections of a request. -/
inductive Section where
  | basicInformation
  | location
  | operationalHours
  | taxAndPayment
  | deliveryConfiguration
  deriving DecidableEq, Repr

/-- The path of a section. -/
def Section.path : Section → String
  | .basicInformation => "basic_information"
  | .location => "location"
  | .operationalHours => "operational_hours"
  | .taxAndPayment => "tax_and_payment"
  | .deliveryConfiguration => "delivery_configuration"

/-- Whether the sub-object of a section is absent (`nil`) in a request. -/
def Section.absent (req : CreateStoreRequest) : Section → Bool
  | .basicInformation => req.BasicInformation.isNone
  | .location => req.Location.isNone
  | .operationalHours => req.OperationalHours.isNone
  | .taxAndPayment => req.TaxAndPayment.isNone
  | .deliveryConfiguration => req.DeliveryConfiguration.isNone

/-- The paths at which the validator of a section records violations: every
string literal passed to `Add` in the validator, in the order of the source. -/
def Section.paths : Section → List String
  | .basicInformation =>
    ["basic_information", "basic_information.store_name", "basic_information.store_type",
      "basic_information.store_image", "basic_information.contact_number",
      "basic_information.shop_manager_id"]
  | .location =>
    ["location", "location.gps_coordinates", "location.gps_coordinates.latitude",
      "location.gps_coordinates.longitude", "location.area", "location.city",
      "location.pincode"]
  | .operationalHours =>
    ["operational_hours", "operational_hours.opening_time", "operational_hours.closing_time",
      "operational_hours.own_pickup_ready_time"]
  | .taxAndPayment =>
    ["tax_and_payment", "tax_and_payment.gst_number", "tax_and_payment.bank_information",
      "tax_and_payment.bank_information.account_holder_name",
      "tax_and_payment.bank_information.bank_account_number",
      "tax_and_payment.bank_information.bank_ifsc_code"]
  | .deliveryConfiguration =>
    ["delivery_configuration", "delivery_configuration.delivery_radius_km",
      "delivery_configuration.delivery_locations",
      "delivery_configuration.delivery_location_type",
      "delivery_configuration.free_delivery_min_order",
      "delivery_configuration.delivery_fee_if_min_not_met"]

/-- The violations of a section of a request. -/
def Section.violations (req : CreateStoreRequest) : Section → List (String × String)
  | .basicInformation => basicInformationViolations req.BasicInformation
  | .location => locationViolations req.Location
  | .operationalHours => operationalHoursViolations req.OperationalHours
  | .taxAndPayment => taxAndPaymentViolations req.TaxAndPayment
  | .deliveryConfiguration => deliveryConfigurationViolations req.DeliveryConfiguration

/-- The violations of all the sections of a request, in the order of validation. -/
def requestViolations (req : CreateStoreRequest) : List (String × String) :=
  basicInformationViolations req.BasicInformation ++ locationViolations req.Location ++
    operationalHoursViolations req.OperationalHours ++
    taxAndPaymentViolations req.TaxAndPayment ++
    deliveryConfigurationViolations req.DeliveryConfiguration

/-! ## The rules of the data model

The rules a request has to satisfy, in the words of the data model. The bound on
the store name and the rule on the IFSC code are parameters, so that they can be
read in characters or in bytes. -/

/-- The pickup-ready times the data model allows. -/
def allowedPickupReadyTimes : List String := ["15 minutes", "30 minutes", "1 hour", "2 hours"]

/-- The delivery location types the data model allows. -/
def allowedDeliveryLocationTypes : List String := ["PAN India", "Radius", "City", "International"]

/-- Store name non-blank and within the bound, store type non-blank, contact
number in E.164 form, manager id non-blank unless the manager is the owner. -/
def BasicInformation.satisfiesRules (nameOk : String → Prop) (b : BasicInformation) : Prop :=
  TrimSpace b.StoreName ≠ "" ∧ nameOk b.StoreName ∧ TrimSpace b.StoreType ≠ "" ∧
  isE164Shape b.ContactNumber = true ∧
  (b.IsManagerSameAsOwner = false → TrimSpace b.ShopManagerId ≠ "")

/-- GPS coordinates present with latitude in [-90, 90] and longitude in
[-180, 180]; area, city and pincode non-blank. -/
def Location.satisfiesRules (l : Location) : Prop :=
  (match l.GpsCoordinates with
    | none => False
    | some gps =>
      (Number.const (-90)).le gps.Latitude = true ∧ gps.Latitude.le (Number.const 90) = true ∧
      (Number.const (-180)).le gps.Longitude = true ∧
      gps.Longitude.le (Number.const 180) = true) ∧
  TrimSpace l.Area ≠ "" ∧ TrimSpace l.City ≠ "" ∧ TrimSpace l.Pincode ≠ ""

/-- Opening and closing time of the form `H:MM` or `HH:MM` unless open 24 hours;
pickup-ready time in the allowed set when own pickup is enabled. -/
def OperationalHours.satisfiesRules (o : OperationalHours) : Prop :=
  (o.IsOpen_24Hours = false → isHMM o.OpeningTime = true ∧ isHMM o.ClosingTime = true) ∧
  (o.IsOwnPickupEnabled = true → o.OwnPickupReadyTime ∈ allowedPickupReadyTimes)

/-- GST number non-blank when GST-registered; when the payment gateway is
enabled, bank information present with non-blank holder name, non-blank account
number and an IFSC code satisfying the rule on IFSC codes. -/
def TaxAndPayment.satisfiesRules (ifscOk : String → Prop) (t : TaxAndPayment) : Prop :=
  (t.GstRegistered = true → TrimSpace t.GstNumber ≠ "") ∧
  (t.IsPaymentGatewayEnabled = true →
    match t.BankInformation with
    | none => False
    | some bank =>
      TrimSpace bank.AccountHolderName ≠ "" ∧ TrimSpace bank.BankAccountNumber ≠ "" ∧
      ifscOk bank.BankIfscCode)

/-- When delivery is enabled: a delivery location type in the allowed set with
its type-specific field satisfied (a positive radius for "Radius", a non-empty
list of locations for "City" and "International"), and non-negative minimum
order and fee. -/
def DeliveryConfiguration.satisfiesRules (d : DeliveryConfiguration) : Prop :=
  d.IsDeliveryEnabled = true →
    d.DeliveryLocationType ∈ allowedDeliveryLocationTypes ∧
    (d.DeliveryLocationType = "Radius" → d.DeliveryRadiusKm.gt (Number.const 0) = true) ∧
    (d.DeliveryLocationType = "City" ∨ d.DeliveryLocationType = "International" →
      d.DeliveryLocations ≠ []) ∧
    (Number.const 0).le d.FreeDeliveryMinOrder = true ∧
    (Number.const 0).le d.DeliveryFeeIfMinNotMet = true

/-- All five sub-objects present and every applicable rule satisfied. -/
def CreateStoreRequest.satisfiesRules (nameOk ifscOk : String → Prop)
    (req : CreateStoreRequest) : Prop :=
  match req.BasicInformation, req.Location, req.OperationalHours, req.TaxAndPayment,
    req.DeliveryConfiguration with
  | some b, some l, some o, some t, some d =>
    b.satisfiesRules nameOk ∧ l.satisfiesRules ∧ o.satisfiesRules ∧ t.satisfiesRules ifscOk ∧
      d.satisfiesRules
  | _, _, _, _, _ => False

/-- The store-name bound read in characters: at most 255 characters. -/
def atMost255Characters (s : String) : Prop := s.length ≤ 255

/-- The store-name bound read in bytes: at most 255 bytes of UTF-8. -/
def atMost255Bytes (s : String) : Prop := len s ≤ 255

/-- The IFSC rule read on the value as given: exactly 11 characters. -/
def has11Characters (s : String) : Prop := s.length = 11

/-- The IFSC rule read on the trimmed value: once surrounding white space is
removed, exactly 11 characters, all of them ASCII. -/
def trimsTo11AsciiCharacters (s : String) : Prop :=
  (TrimSpace s).length = 11 ∧ ∀ c ∈ (TrimSpace s).data, c.toNat < 128

/-! ## A sample request -/

/-- A request that satisfies every rule of the data model, with the given IFSC code. -/
def sampleRequest (ifsc : String) : CreateStoreRequest where
  BasicInformation := some
    { StoreName := "Corner Shop", StoreType := "grocery", StoreImage := "",
      ContactNumber := "+14155552671", IsManagerSameAsOwner := true, ShopManagerId := "" }
  Location := some
    { GpsCoordinates := some { Latitude := .fin 13, Longitude := .fin 77 },
      Area := "Indiranagar", City := "Bengaluru", Pincode := "560038" }
  OperationalHours := some
    { IsOpen_24Hours := false, OpeningTime := "9:00", ClosingTime := "18:30",
      IsOwnPickupEnabled := true, OwnPickupReadyTime := "30 minutes" }
  TaxAndPayment := some
    { GstRegistered := true, GstNumber := "29ABCDE1234F1Z5", IsPaymentGatewayEnabled := true,
      BankInformation := some
        { AccountHolderName := "A. Kumar", BankAccountNumber := "000123456789",
          BankIfscCode := ifsc } }
  DeliveryConfiguration := some
    { IsDeliveryEnabled := true, DeliveryLocationType := "Radius", DeliveryRadiusKm := .fin 5,
      DeliveryLocations := [], FreeDeliveryMinOrder := .fin 0, DeliveryFeeIfMinNotMet := .fin 0 }

/-! ## Reading the accumulator -/

/-- Lookup `m[k]` in a map kept as an association list: the message of the
first entry whose key is `k`, if there is one. -/
def mapGet : List (String × String) → String → Option String
  | [], _ => none
  | (k', v') :: rest, k => if k' = k then some v' else mapGet rest k

/-- The message recorded at a field path, if any. -/
def ValidationErrors.get (v : ValidationErrors) (path : String) : Option String :=
  mapGet v.Errors path

/-! ## Errors of the service (`pkg/errors/error_handler.go`) -/

namespace customError

structure CustomError where
  StatusCode : Int
  Message : String
  Details : List (String × String)
  deriving DecidableEq, Repr

def New (statusCode : Int) (message : String) (details : List (String × String)) :
    CustomError :=
  { StatusCode := statusCode, Message := message, Details := details }

def BadRequest (message : String) (details : List (String × String)) : CustomError :=
  New 400 message details

end customError

/-! ## The service method (`pkg/store/service/service.go`) -/

/-- Modelled from the spec: a point in time, as `timestamppb` holds it. -/
structure Timestamp where
  Seconds : Int
  Nanos : Int
  deriving DecidableEq, Repr

/-- Modelled from the spec: the message `StoreData` of `pkg/store/proto`. -/
structure StoreData where
  StoreId : String
  StoreName : String
  CreatedAt : Timestamp
  deriving DecidableEq, Repr

/-- Modelled from the spec: the message `CreateStoreResponse` of `pkg/store/proto`. -/
structure CreateStoreResponse where
  Status : String
  Message : String
  Data : Option StoreData
  deriving DecidableEq, Repr

/-- The method `CreateStore`. The identifier produced by `uuid.NewV7` (as a
string) and the time read by `time.Now` are inputs. The result is the pair of
the response and the error, either of which may be `nil`; the outer `none`
stands for the run-time panic of dereferencing an absent `BasicInformation`. -/
def CreateStore (storeID : String) (now : Timestamp) (req : CreateStoreRequest) :
    Option (Option CreateStoreResponse × Option customError.CustomError) :=
  match validateCreateStoreRequest req with
  | some validationErrs =>
    some (none, some (customError.BadRequest validationErrs.Error validationErrs.Errors))
  | none =>
    match req.BasicInformation with
    | none => none
    | some basicInformation =>
      let response : CreateStoreResponse :=
        { Status := "success"
          Message := "Store created successfully"
          Data := some
            { StoreId := storeID
              StoreName := basicInformation.StoreName
              CreatedAt := now } }
      some (some response, none)

/-! ## The validators over an instrumented accumulator

To count the calls of `Add`, the section validators are given a second time,
word for word, over an arbitrary accumulator with a method `Add`. Over
`ValidationErrors` they are the validators above; over `TracedErrors` every call
of `Add` is logged, together with whether its path had an entry already. -/

/-- An accumulator: a type with the method `Add`. -/
class Accumulator (α : Type) where
  Add : α → String → String → α

instance : Accumulator ValidationErrors where
  Add := ValidationErrors.Add

/-- An accumulator that logs the calls of `Add`: the accumulator proper, the
calls made so far in order, and the paths of the calls that found an entry at
their path and overwrote it. -/
structure TracedErrors where
  errors : ValidationErrors
  calls : List (String × String)
  overwritten : List String
  deriving DecidableEq, Repr

instance : Accumulator TracedErrors where
  Add t field message :=
    { errors := t.errors.Add field message
      calls := t.calls ++ [(field, message)]
      overwritten := if t.errors.has field then t.overwritten ++ [field] else t.overwritten }

/-- The validator `validateBasicInformation`, over an arbitrary accumulator. -/
def genericValidateBasicInformation {α : Type} [Accumulator α] (basic : Option BasicInformation)
    (errors : α) : α :=
  match basic with
  | none => Accumulator.Add errors "basic_information" "Basic information is required."
  | some basic =>
    let errors :=
      if len (TrimSpace basic.StoreName) = 0 then
        Accumulator.Add errors "basic_information.store_name" "Store name is required."
      else if len basic.StoreName > 255 then
        Accumulator.Add errors "basic_information.store_name" "Store name must be at most 255 characters."
      else errors
    let errors :=
      if len (TrimSpace basic.StoreType) = 0 then
        Accumulator.Add errors "basic_information.store_type" "Store type is required."
      else errors
    let errors :=
      if basic.StoreImage ≠ "" ∧ !isValidURLOrBase64 basic.StoreImage then
        Accumulator.Add errors "basic_information.store_image"
          "Store image must be a valid URL or base64 string."
      else errors
    let errors :=
      if len (TrimSpace basic.ContactNumber) = 0 then
        Accumulator.Add errors "basic_information.contact_number" "Contact number is required."
      else if !isValidE164 basic.ContactNumber then
        Accumulator.Add errors "basic_information.contact_number" "Contact number must be in E.164 format."
      else errors
    if !basic.IsManagerSameAsOwner ∧ len (TrimSpace basic.ShopManagerId) = 0 then
      Accumulator.Add errors "basic_information.shop_manager_id"
        "Manager ID is required when not the same as owner."
    else errors

/-- The validator `validateLocation`, over an arbitrary accumulator. -/
def genericValidateLocation {α : Type} [Accumulator α] (location : Option Location)
    (errors : α) : α :=
  match location with
  | none => Accumulator.Add errors "location" "Location is required."
  | some location =>
    let errors :=
      match location.GpsCoordinates with
      | none => Accumulator.Add errors "location.gps_coordinates" "GPS coordinates are required."
      | some gps =>
        let errors :=
          if gps.Latitude.lt (Number.const (-90)) ∨ gps.Latitude.gt (Number.const 90) then
            Accumulator.Add errors "location.gps_coordinates.latitude" "Latitude must be between -90 and 90."
          else errors
        if gps.Longitude.lt (Number.const (-180)) ∨ gps.Longitude.gt (Number.const 180) then
          Accumulator.Add errors "location.gps_coordinates.longitude"
            "Longitude must be between -180 and 180."
        else errors
    let errors :=
      if len (TrimSpace location.Area) = 0 then
        Accumulator.Add errors "location.area" "Area is required."
      else errors
    let errors :=
      if len (TrimSpace location.City) = 0 then
        Accumulator.Add errors "location.city" "City is required."
      else errors
    if len (TrimSpace location.Pincode) = 0 then
      Accumulator.Add errors "location.pincode" "Pincode is required."
    else errors

/-- The validator `validateOperationalHours`, over an arbitrary accumulator. -/
def genericValidateOperationalHours {α : Type} [Accumulator α] (operationalHours : Option OperationalHours)
    (errors : α) : α :=
  match operationalHours with
  | none => Accumulator.Add errors "operational_hours" "Operational hours are required."
  | some operationalHours =>
    let errors :=
      if !operationalHours.IsOpen_24Hours then
        let errors :=
          if len (TrimSpace operationalHours.OpeningTime) = 0 ∨
              !isValidTimeFormat operationalHours.OpeningTime then
            Accumulator.Add errors "operational_hours.opening_time"
              "Opening time is required and must be in HH:MM format if the store is not open 24 hours."
          else errors
        if len (TrimSpace operationalHours.ClosingTime) = 0 ∨
            !isValidTimeFormat operationalHours.ClosingTime then
          Accumulator.Add errors "operational_hours.closing_time"
            "Closing time is required and must be in HH:MM format if the store is not open 24 hours."
        else errors
      else errors
    if operationalHours.IsOwnPickupEnabled ∧
        !isAllowedPickupReadyTime operationalHours.OwnPickupReadyTime then
      Accumulator.Add errors "operational_hours.own_pickup_ready_time"
        "Pickup ready time must be one of the allowed options: '15 minutes', '30 minutes', '1 hour', '2 hours'."
    else errors

/-- The validator `validateTaxAndPayment`, over an arbitrary accumulator. -/
def genericValidateTaxAndPayment {α : Type} [Accumulator α] (taxAndPayment : Option TaxAndPayment)
    (errors : α) : α :=
  match taxAndPayment with
  | none => Accumulator.Add errors "tax_and_payment" "Tax and payment information is required."
  | some taxAndPayment =>
    let errors :=
      if taxAndPayment.GstRegistered ∧ len (TrimSpace taxAndPayment.GstNumber) = 0 then
        Accumulator.Add errors "tax_and_payment.gst_number"
          "GST number is required if the store is GST registered."
      else errors
    if taxAndPayment.IsPaymentGatewayEnabled then
      match taxAndPayment.BankInformation with
      | none =>
        Accumulator.Add errors "tax_and_payment.bank_information"
          "Bank information is required if the payment gateway is enabled."
      | some bank =>
        let errors :=
          if len (TrimSpace bank.AccountHolderName) = 0 then
            Accumulator.Add errors "tax_and_payment.bank_information.account_holder_name"
              "Account holder name is required in bank information."
          else errors
        let errors :=
          if len (TrimSpace bank.BankAccountNumber) = 0 then
            Accumulator.Add errors "tax_and_payment.bank_information.bank_account_number"
              "Bank account number is required in bank information."
          else errors
        if len (TrimSpace bank.BankIfscCode) ≠ 11 then
          Accumulator.Add errors "tax_and_payment.bank_information.bank_ifsc_code"
            "IFSC code must be exactly 11 characters in bank information."
        else errors
    else errors

/-- The validator `validateDeliveryConfiguration`, over an arbitrary accumulator. -/
def genericValidateDeliveryConfiguration {α : Type} [Accumulator α] (delivery : Option DeliveryConfiguration)
    (errors : α) : α :=
  match delivery with
  | none => Accumulator.Add errors "delivery_configuration" "Delivery configuration is required."
  | some delivery =>
    if delivery.IsDeliveryEnabled then
      let errors :=
        if delivery.DeliveryLocationType = "Radius" then
          if delivery.DeliveryRadiusKm.le (Number.const 0) then
            Accumulator.Add errors "delivery_configuration.delivery_radius_km"
              "Delivery radius must be a positive number if delivery location type is 'Radius'."
          else errors
        else if delivery.DeliveryLocationType = "City" ∨
            delivery.DeliveryLocationType = "International" then
          if delivery.DeliveryLocations.length = 0 then
            Accumulator.Add errors "delivery_configuration.delivery_locations"
              "Delivery locations must be provided if delivery location type is 'City' or 'International'."
          else errors
        else if delivery.DeliveryLocationType = "PAN India" then
          errors
        else
          Accumulator.Add errors "delivery_configuration.delivery_location_type"
            "Delivery location type must be one of the allowed options: 'PAN India', 'City', 'Radius', 'International'."
      let errors :=
        if delivery.FreeDeliveryMinOrder.lt (Number.const 0) then
          Accumulator.Add errors "delivery_configuration.free_delivery_min_order"
            "Minimum order amount for free delivery must be a positive number."
        else errors
      if delivery.DeliveryFeeIfMinNotMet.lt (Number.const 0) then
        Accumulator.Add errors "delivery_configuration.delivery_fee_if_min_not_met"
          "Delivery fee must be a positive number."
      else errors
    else errors

/-- The five calls of `validateCreateStoreRequest`, in their order. -/
def genericValidateSections {α : Type} [Accumulator α] (req : CreateStoreRequest) (errors : α) : α :=
  let errors := genericValidateBasicInformation req.BasicInformation errors
  let errors := genericValidateLocation req.Location errors
  let errors := genericValidateOperationalHours req.OperationalHours errors
  let errors := genericValidateTaxAndPayment req.TaxAndPayment errors
  genericValidateDeliveryConfiguration req.DeliveryConfiguration errors

/-- Adding a list of entries to an accumulator, one `Add` after the other. -/
def genericAddAll {α : Type} [Accumulator α] (errors : α) (entries : List (String × String)) : α :=
  entries.foldl (fun e p => Accumulator.Add e p.1 p.2) errors

/-- One run of the section validators of `validateCreateStoreRequest` on a fresh
accumulator, with the calls of `Add` logged. -/
def tracedRun (req : CreateStoreRequest) : TracedErrors :=
  genericValidateSections req ⟨NewValidationErrors, [], []⟩

/-! ## Facts about the accumulator -/

theorem mem_paths_mapSet (l : List (String × String)) (k v p : String) :
    p ∈ (mapSet l k v).map Prod.fst ↔ p ∈ l.map Prod.fst ∨ p = k := by
  induction l with
  | nil => simp [mapSet]
  | cons e rest ih =>
    obtain ⟨k', v'⟩ := e
    by_cases h : k' = k
    · subst h
      simp only [mapSet, if_true, List.map_cons, List.mem_cons]
      tauto
    · simp only [mapSet, if_neg h, List.map_cons, List.mem_cons, ih]
      tauto

theorem mapSet_of_not_mem (l : List (String × String)) (k v : String)
    (h : k ∉ l.map Prod.fst) : mapSet l k v = l ++ [(k, v)] := by
  induction l with
  | nil => rfl
  | cons e rest ih =>
    obtain ⟨k', v'⟩ := e
    simp only [List.map_cons, List.mem_cons, not_or] at h
    have hne : ¬ k' = k := fun hk => h.1 hk.symm
    simp [mapSet, hne, ih h.2]

theorem has_Add (errs : ValidationErrors) (k v p : String) :
    (errs.Add k v).has p = true ↔ errs.has p = true ∨ p = k := by
  simp only [ValidationErrors.has, ValidationErrors.paths, ValidationErrors.Add, pathsOf,
    decide_eq_true_eq, mem_paths_mapSet]

theorem has_New (p : String) : NewValidationErrors.has p = false := by
  simp [ValidationErrors.has, ValidationErrors.paths, NewValidationErrors, pathsOf]

theorem addAll_nil (errs : ValidationErrors) : addAll errs [] = errs := rfl

theorem addAll_cons (errs : ValidationErrors) (e : String × String) (l : List (String × String)) :
    addAll errs (e :: l) = addAll (errs.Add e.1 e.2) l := rfl

theorem addAll_append (errs : ValidationErrors) (l₁ l₂ : List (String × String)) :
    addAll errs (l₁ ++ l₂) = addAll (addAll errs l₁) l₂ := by
  simp [addAll, List.foldl_append]

theorem addAll_entryIf (errs : ValidationErrors) (c : Prop) [Decidable c] (k m : String) :
    addAll errs (entryIf c k m) = if c then errs.Add k m else errs := by
  unfold entryIf; split <;> rfl

theorem addAll_ite (errs : ValidationErrors) (c : Prop) [Decidable c]
    (l₁ l₂ : List (String × String)) :
    addAll errs (if c then l₁ else l₂) = if c then addAll errs l₁ else addAll errs l₂ := by
  split <;> rfl

theorem pathsOf_nil : pathsOf [] = [] := rfl

theorem pathsOf_cons (e : String × String) (l : List (String × String)) :
    pathsOf (e :: l) = e.1 :: pathsOf l := rfl

theorem pathsOf_append (l₁ l₂ : List (String × String)) :
    pathsOf (l₁ ++ l₂) = pathsOf l₁ ++ pathsOf l₂ := by
  simp [pathsOf]

theorem length_pathsOf (l : List (String × String)) : (pathsOf l).length = l.length := by
  simp [pathsOf]

/-- Whether a path is present after adding entries: it was present before, or it
is the path of one of the entries. -/
theorem has_addAll (errs : ValidationErrors) (l : List (String × String)) (p : String) :
    (addAll errs l).has p = true ↔ errs.has p = true ∨ p ∈ pathsOf l := by
  induction l generalizing errs with
  | nil => simp [addAll_nil, pathsOf_nil]
  | cons e rest ih =>
    rw [addAll_cons, ih, has_Add, pathsOf_cons]
    simp only [List.mem_cons]
    tauto

/-- Adding entries with pairwise distinct paths, none of them present yet,
appends them to the accumulator. -/
theorem addAll_of_fresh (errs : ValidationErrors) (l : List (String × String))
    (hl : (pathsOf l).Nodup) (hd : ∀ k ∈ pathsOf l, k ∉ errs.paths) :
    (addAll errs l).Errors = errs.Errors ++ l := by
  induction l generalizing errs with
  | nil => simp [addAll_nil]
  | cons e rest ih =>
    simp only [pathsOf_cons, List.nodup_cons] at hl
    rw [addAll_cons, ih _ hl.2]
    · have h1 : e.1 ∉ errs.Errors.map Prod.fst := hd e.1 (by simp [pathsOf_cons])
      simp [ValidationErrors.Add, mapSet_of_not_mem _ _ _ h1]
    · intro k hk
      have hk' : k ∉ errs.paths := hd k (by simp [pathsOf_cons, hk])
      have hne : k ≠ e.1 := fun h => hl.1 (h ▸ hk)
      simp only [ValidationErrors.paths, ValidationErrors.Add, pathsOf, mem_paths_mapSet, not_or]
      exact ⟨hk', hne⟩

theorem addAll_New (l : List (String × String)) (hl : (pathsOf l).Nodup) :
    (addAll NewValidationErrors l).Errors = l := by
  rw [addAll_of_fresh _ _ hl]
  · rfl
  · intro k _; simp [ValidationErrors.paths, NewValidationErrors, pathsOf]

theorem mem_pathsOf_entryIf (c : Prop) [Decidable c] (k m p : String) :
    p ∈ pathsOf (entryIf c k m) ↔ c ∧ p = k := by
  unfold entryIf; split <;> simp [*, pathsOf]

theorem mem_pathsOf_ite (c : Prop) [Decidable c] (l₁ l₂ : List (String × String)) (p : String) :
    p ∈ pathsOf (if c then l₁ else l₂) ↔ (c ∧ p ∈ pathsOf l₁) ∨ (¬ c ∧ p ∈ pathsOf l₂) := by
  split <;> simp [*]

theorem pathsOf_entryIf_sublist (c : Prop) [Decidable c] (k m : String) :
    List.Sublist (pathsOf (entryIf c k m)) [k] := by
  unfold entryIf; split <;> simp [pathsOf]

/-! ## The validators add the violations of their section -/

theorem validateBasicInformation_eq (basic : Option BasicInformation) (errs : ValidationErrors) :
    validateBasicInformation basic errs = addAll errs (basicInformationViolations basic) := by
  cases basic with
  | none => rfl
  | some b =>
    simp only [validateBasicInformation, basicInformationViolations, addAll_append,
      addAll_entryIf, addAll_ite, addAll_cons, addAll_nil]

theorem validateLocation_eq (location : Option Location) (errs : ValidationErrors) :
    validateLocation location errs = addAll errs (locationViolations location) := by
  cases location with
  | none => rfl
  | some l =>
    simp only [validateLocation, locationViolations, addAll_append,
      addAll_entryIf, addAll_ite, addAll_cons, addAll_nil]
    cases l.GpsCoordinates <;>
    simp only [gpsViolations, addAll_append,
      addAll_entryIf, addAll_ite, addAll_cons, addAll_nil]

theorem validateOperationalHours_eq (oh : Option OperationalHours) (errs : ValidationErrors) :
    validateOperationalHours oh errs = addAll errs (operationalHoursViolations oh) := by
  cases oh with
  | none => rfl
  | some o =>
    simp only [validateOperationalHours, operationalHoursViolations, addAll_append,
      addAll_entryIf, addAll_ite, addAll_cons, addAll_nil]
    cases o.IsOpen_24Hours <;> simp

theorem validateTaxAndPayment_eq (tp : Option TaxAndPayment) (errs : ValidationErrors) :
    validateTaxAndPayment tp errs = addAll errs (taxAndPaymentViolations tp) := by
  cases tp with
  | none => rfl
  | some t =>
    simp only [validateTaxAndPayment, taxAndPaymentViolations, addAll_append,
      addAll_entryIf, addAll_ite, addAll_cons, addAll_nil]
    cases t.BankInformation <;>
    simp only [bankInformationViolations, addAll_append,
      addAll_entryIf, addAll_ite, addAll_cons, addAll_nil]

theorem validateDeliveryConfiguration_eq (d : Option DeliveryConfiguration)
    (errs : ValidationErrors) :
    validateDeliveryConfiguration d errs = addAll errs (deliveryConfigurationViolations d) := by
  cases d with
  | none => rfl
  | some d =>
    simp only [validateDeliveryConfiguration, deliveryConfigurationViolations,
      deliveryTypeViolations, addAll_append,
      addAll_entryIf, addAll_ite, addAll_cons, addAll_nil]

/-! ## Facts about strings -/

theorem len_eq_zero_iff (s : String) : len s = 0 ↔ s = "" := by
  obtain ⟨l⟩ := s
  simp only [len, String.utf8ByteSize_mk, String.utf8Len_eq_zero]
  constructor
  · rintro rfl; rfl
  · intro h; exact congrArg String.data h

theorem dropTrailingSpace_eq_nil (l : List Char) :
    dropTrailingSpace l = [] ↔ ∀ c ∈ l, isSpace c = true := by
  simp [dropTrailingSpace, List.dropWhile_eq_nil_iff]

/-- A string is empty after trimming iff it consists of white space only. -/
theorem TrimSpace_eq_empty_iff (s : String) :
    TrimSpace s = "" ↔ ∀ c ∈ s.data, isSpace c = true := by
  have h0 : TrimSpace s = "" ↔ dropTrailingSpace (s.data.dropWhile isSpace) = [] := by
    constructor
    · intro h; exact congrArg String.data h
    · intro h; simp [TrimSpace, h]
  rw [h0, dropTrailingSpace_eq_nil]
  constructor
  · intro h
    have h2 : s.data.dropWhile isSpace = [] := by
      cases hd : s.data.dropWhile isSpace with
      | nil => rfl
      | cons a t =>
        have ha := List.head_dropWhile_not isSpace s.data (by simp [hd])
        simp only [hd, List.head_cons] at ha
        have := h a (by simp [hd])
        simp [this] at ha
    simpa [List.dropWhile_eq_nil_iff] using h2
  · intro h c hc
    exact h c ((List.dropWhile_sublist _).subset hc)

/-! ## Facts about characters -/

theorem char_le_iff (a b : Char) : a ≤ b ↔ a.toNat ≤ b.toNat := Iff.rfl

theorem char_eq_iff (a b : Char) : a = b ↔ a.toNat = b.toNat :=
  ⟨fun h => h ▸ rfl, fun h => Char.ext (UInt32.toNat.inj h)⟩

theorem isDigit_iff (c : Char) : c.isDigit = true ↔ 48 ≤ c.toNat ∧ c.toNat ≤ 57 := by
  simp only [Char.isDigit, Bool.and_eq_true, decide_eq_true_eq]
  exact Iff.rfl

theorem utf8Size_of_ascii (c : Char) (h : c.toNat < 128) : c.utf8Size = 1 := by
  have h1 : c.val ≤ UInt32.ofNatCore 127 (by decide) := by
    show c.val.toNat ≤ 127
    have : c.toNat = c.val.toNat := rfl
    omega
  unfold Char.utf8Size
  exact if_pos h1

theorem utf8Len_of_ascii (l : List Char) (h : ∀ c ∈ l, c.toNat < 128) :
    String.utf8Len l = l.length := by
  induction l with
  | nil => rfl
  | cons a t ih =>
    simp only [String.utf8Len_cons, List.length_cons]
    rw [ih (fun c hc => h c (List.mem_cons_of_mem _ hc)), utf8Size_of_ascii a (h a (by simp))]

theorem isSpace_iff (c : Char) : isSpace c = true ↔
    (9 ≤ c.toNat ∧ c.toNat ≤ 13) ∨ c.toNat = 32 ∨ c.toNat = 0x85 ∨ c.toNat = 0xA0 ∨
    c.toNat = 0x1680 ∨ (0x2000 ≤ c.toNat ∧ c.toNat ≤ 0x200a) ∨ c.toNat = 0x2028 ∨
    c.toNat = 0x2029 ∨ c.toNat = 0x202f ∨ c.toNat = 0x205f ∨ c.toNat = 0x3000 := by
  simp [isSpace, or_assoc]

theorem not_isSpace_of_isDigit (c : Char) (h : c.isDigit = true) : isSpace c = false := by
  rw [isDigit_iff] at h
  rw [Bool.eq_false_iff, Ne, isSpace_iff]
  omega

/-! ## Facts about the regular expressions -/

theorem run_digit (s : List Char) :
    Regex.digit.run s = match s with
      | [] => []
      | d :: t => if d.isDigit then [t] else [] := by
  cases s with
  | nil => rfl
  | cons d t =>
    simp only [Regex.digit, Regex.run, inClass, List.any_cons, List.any_nil, Bool.or_false,
      Bool.and_eq_true, decide_eq_true_eq]
    by_cases h : d.isDigit = true
    · have h' := (isDigit_iff d).1 h
      simp [h, h'] 
    · have h' := mt (isDigit_iff d).2 h
      simp [h, h']

/-- At most `n` digits and nothing else. -/
theorem atMost_digit (n : Nat) (s : List Char) :
    [] ∈ Regex.atMost Regex.digit.run n s ↔ s.length ≤ n ∧ ∀ c ∈ s, c.isDigit = true := by
  induction n generalizing s with
  | zero =>
    cases s <;> simp [Regex.atMost]
  | succ n ih =>
    cases s with
    | nil => simp [Regex.atMost]
    | cons d t =>
      simp only [Regex.atMost, run_digit, List.mem_append, List.mem_flatMap,
        List.mem_singleton, List.length_cons, List.mem_cons, forall_eq_or_imp]
      by_cases h : d.isDigit = true
      · simp [h, ih]
      · simp [h]

/-- Between `m` and `m + n` digits and nothing else. -/
theorem iterate_digit (m n : Nat) (s : List Char) :
    [] ∈ Regex.iterate Regex.digit.run m n s ↔
      (m ≤ s.length ∧ s.length ≤ m + n) ∧ ∀ c ∈ s, c.isDigit = true := by
  induction m generalizing s with
  | zero => simp [Regex.iterate, atMost_digit]
  | succ m ih =>
    cases s with
    | nil => simp [Regex.iterate, run_digit]
    | cons d t =>
      simp only [Regex.iterate, run_digit, List.mem_flatMap, List.length_cons, List.mem_cons,
        forall_eq_or_imp]
      by_cases h : d.isDigit = true
      · simp [h, ih]; omega
      · simp [h]

theorem any_isEmpty_iff (l : List (List Char)) : l.any List.isEmpty = true ↔ [] ∈ l := by
  induction l with
  | nil => simp
  | cons a t ih =>
    cases a <;> simp [ih]

/-- A pattern anchored at both ends matches a text iff its body can consume the
whole text. -/
theorem MatchString_anchored (body : Regex) (s : String) :
    (Regexp.mk true body true).MatchString s = true ↔ [] ∈ body.run s.data := by
  simp [Regexp.MatchString, any_isEmpty_iff]

theorem run_cat (a b : Regex) (s : List Char) :
    (Regex.cat a b).run s = (a.run s).flatMap b.run := by rw [Regex.run]

theorem run_alt (a b : Regex) (s : List Char) :
    (Regex.alt a b).run s = a.run s ++ b.run s := by rw [Regex.run]

theorem run_opt (a : Regex) (s : List Char) :
    (Regex.opt a).run s = a.run s ++ [s] := by rw [Regex.run]

theorem run_rep (a : Regex) (m n : Nat) (s : List Char) :
    (Regex.rep a m n).run s = Regex.iterate a.run m (n - m) s := by rw [Regex.run]

theorem run_lit_nil (c : Char) : (Regex.lit c).run [] = [] := by rw [Regex.run]

theorem run_lit_cons (c d : Char) (t : List Char) :
    (Regex.lit c).run (d :: t) = if d = c then [t] else [] := by rw [Regex.run]

theorem run_cls_nil (r : List (Char × Char)) : (Regex.cls r).run [] = [] := by rw [Regex.run]

theorem run_cls_cons (r : List (Char × Char)) (d : Char) (t : List Char) :
    (Regex.cls r).run (d :: t) = if inClass r d then [t] else [] := by rw [Regex.run]

/-- The part of the E.164 pattern after the optional `+`, on the empty input. -/
theorem run_e164_digits_nil :
    [] ∉ (Regex.cat (.cls [('1', '9')]) (.rep Regex.digit 1 14)).run [] := by
  simp [run_cat, run_cls_nil]

/-- The part of the E.164 pattern after the optional `+`. -/
theorem run_e164_digits_cons (d : Char) (rest : List Char) :
    [] ∈ (Regex.cat (.cls [('1', '9')]) (.rep Regex.digit 1 14)).run (d :: rest) ↔
      (49 ≤ d.toNat ∧ d.toNat ≤ 57) ∧
        (1 ≤ rest.length ∧ rest.length ≤ 14) ∧ ∀ c ∈ rest, c.isDigit = true := by
  simp only [run_cat, run_cls_cons, run_rep, inClass, List.any_cons, List.any_nil,
    Bool.or_false, Bool.and_eq_true, decide_eq_true_eq, List.mem_flatMap, Char.reduceToNat]
  by_cases h : (49 ≤ d.toNat ∧ d.toNat ≤ 57)
  · simp [h, iterate_digit]
  · simp [h]

theorem isValidE164_eq_isE164Shape (s : String) : isValidE164 s = isE164Shape s := by
  obtain ⟨l⟩ := s
  rw [Bool.eq_iff_iff, isValidE164, e164Pattern, MatchString_anchored]
  cases l with
  | nil => simp [run_cat, run_opt, run_lit_nil, run_cls_nil, isE164Shape]
  | cons c t =>
    have key : [] ∈ (Regex.cat (.opt (.lit '+'))
        (.cat (.cls [('1', '9')]) (.rep Regex.digit 1 14))).run (c :: t) ↔
        (c = '+' ∧ [] ∈ (Regex.cat (.cls [('1', '9')]) (.rep Regex.digit 1 14)).run t) ∨
        [] ∈ (Regex.cat (.cls [('1', '9')]) (.rep Regex.digit 1 14)).run (c :: t) := by
      rw [run_cat, run_opt, run_lit_cons]
      by_cases hc : c = '+'
      · simp [hc]
      · simp [hc]
    rw [key, run_e164_digits_cons]
    by_cases hc : c = '+'
    · subst hc
      cases t with
      | nil => simp [isE164Shape, run_e164_digits_nil]
      | cons d rest => simp [isE164Shape, char_le_iff, and_assoc, run_e164_digits_cons]
    · simp [isE164Shape, hc, char_le_iff, and_assoc]

theorem mem_run_lit_nil (c : Char) (t : List Char) : t ∈ (Regex.lit c).run [] ↔ False := by
  simp [run_lit_nil]

theorem mem_run_lit_cons (c d : Char) (u t : List Char) :
    t ∈ (Regex.lit c).run (d :: u) ↔ d = c ∧ t = u := by
  rw [run_lit_cons]
  by_cases h : d = c <;> simp [h]

theorem mem_run_cls_nil (r : List (Char × Char)) (t : List Char) :
    t ∈ (Regex.cls r).run [] ↔ False := by
  simp [run_cls_nil]

theorem mem_run_cls_cons (r : List (Char × Char)) (d : Char) (u t : List Char) :
    t ∈ (Regex.cls r).run (d :: u) ↔ inClass r d = true ∧ t = u := by
  rw [run_cls_cons]
  by_cases h : inClass r d = true <;> simp [h]

theorem mem_run_cat (a b : Regex) (s t : List Char) :
    t ∈ (Regex.cat a b).run s ↔ ∃ u, u ∈ a.run s ∧ t ∈ b.run u := by
  simp [run_cat, List.mem_flatMap]

theorem mem_run_alt (a b : Regex) (s t : List Char) :
    t ∈ (Regex.alt a b).run s ↔ t ∈ a.run s ∨ t ∈ b.run s := by
  simp [run_alt]

theorem mem_run_opt (a : Regex) (s t : List Char) :
    t ∈ (Regex.opt a).run s ↔ t ∈ a.run s ∨ t = s := by
  simp [run_opt]

theorem isValidTimeFormat_eq (s : String) : isValidTimeFormat s = isTimeOfDay s := by
  obtain ⟨l⟩ := s
  rw [Bool.eq_iff_iff, isValidTimeFormat, timePattern, MatchString_anchored]
  rcases l with _ | ⟨a, _ | ⟨b, _ | ⟨c, _ | ⟨d, _ | ⟨e, _ | ⟨f, t⟩⟩⟩⟩⟩⟩
  all_goals
    simp only [mem_run_cat, mem_run_alt, mem_run_opt, mem_run_lit_cons, mem_run_lit_nil,
      mem_run_cls_cons, mem_run_cls_nil, and_assoc, or_and_right, exists_or, exists_and_left,
      exists_eq_left, false_and, exists_false, or_false, false_or, and_false,
      isTimeOfDay, inClass, List.any_cons, List.any_nil, Char.reduceToNat]
    simp only [isHour, isMinute, digitValue, isDigit_iff, char_eq_iff, Char.reduceToNat,
      Bool.and_eq_true, Bool.or_eq_true, decide_eq_true_eq, beq_iff_eq, List.nil_eq,
      reduceCtorEq, and_false, or_false, and_true, Bool.false_eq_true, iff_self]
    try omega

/-! ## Presence of a path after a section validator -/

theorem validateBasicInformation_has (basic : Option BasicInformation) (errs : ValidationErrors)
    (p : String) :
    (validateBasicInformation basic errs).has p = true ↔
      errs.has p = true ∨ p ∈ pathsOf (basicInformationViolations basic) := by
  rw [validateBasicInformation_eq, has_addAll]

theorem validateLocation_has (location : Option Location) (errs : ValidationErrors)
    (p : String) :
    (validateLocation location errs).has p = true ↔
      errs.has p = true ∨ p ∈ pathsOf (locationViolations location) := by
  rw [validateLocation_eq, has_addAll]

theorem validateOperationalHours_has (oh : Option OperationalHours) (errs : ValidationErrors)
    (p : String) :
    (validateOperationalHours oh errs).has p = true ↔
      errs.has p = true ∨ p ∈ pathsOf (operationalHoursViolations oh) := by
  rw [validateOperationalHours_eq, has_addAll]

theorem validateTaxAndPayment_has (tp : Option TaxAndPayment) (errs : ValidationErrors)
    (p : String) :
    (validateTaxAndPayment tp errs).has p = true ↔
      errs.has p = true ∨ p ∈ pathsOf (taxAndPaymentViolations tp) := by
  rw [validateTaxAndPayment_eq, has_addAll]

theorem validateDeliveryConfiguration_has (d : Option DeliveryConfiguration)
    (errs : ValidationErrors) (p : String) :
    (validateDeliveryConfiguration d errs).has p = true ↔
      errs.has p = true ∨ p ∈ pathsOf (deliveryConfigurationViolations d) := by
  rw [validateDeliveryConfiguration_eq, has_addAll]

/-! ## Numbers -/

theorem Number.le_eq_false_of_lt (a b : Number) (h : a.lt b = true) : b.le a = false := by
  cases a <;> cases b <;> simp_all [Number.lt, Number.le]

theorem Number.lt_eq_false_of_le (a b : Number) (h : a.le b = true) : b.lt a = false := by
  cases a <;> cases b <;> simp_all [Number.lt, Number.le]

/-! ## Times of day -/

theorem isTimeOfDay_of_isHMM (s : String) (h : isHMM s = true) : isTimeOfDay s = true := by
  obtain ⟨l⟩ := s
  rcases l with _ | ⟨a, _ | ⟨b, _ | ⟨c, _ | ⟨d, _ | ⟨e, _ | ⟨f, t⟩⟩⟩⟩⟩⟩ <;>
    simp_all [isHMM, isTimeOfDay, isTwoDigitMinute, isMinute]

theorem not_blank_of_isTimeOfDay (s : String) (h : isTimeOfDay s = true) : TrimSpace s ≠ "" := by
  obtain ⟨l⟩ := s
  rw [Ne, TrimSpace_eq_empty_iff]
  intro hall
  have hd : ∀ a t, l = a :: t → a.isDigit = true → False := by
    intro a t hl ha
    have := hall a (by simp [hl])
    rw [not_isSpace_of_isDigit a ha] at this
    exact Bool.false_ne_true this
  rcases l with _ | ⟨a, _ | ⟨b, _ | ⟨c, _ | ⟨d, _ | ⟨e, _ | ⟨f, t⟩⟩⟩⟩⟩⟩ <;>
    simp [isTimeOfDay, isHour] at h
  · exact hd a _ rfl h.1.1
  · rcases h with h | h
    · exact hd a _ rfl h.1.1
    · exact hd a _ rfl h.1.1.1.1
  · exact hd a _ rfl h.1.1.1.1

theorem len_replicate (n : Nat) (c : Char) : len ⟨List.replicate n c⟩ = n * c.utf8Size := by
  induction n with
  | zero => rw [Nat.zero_mul]; rfl
  | succ n ih =>
    simp only [len, String.utf8ByteSize_mk, List.replicate_succ, String.utf8Len_cons] at ih ⊢
    rw [ih]; ring

theorem TrimSpace_ne_empty_of_mem (s : String) (c : Char) (hc : c ∈ s.data)
    (h : isSpace c = false) : TrimSpace s ≠ "" := by
  rw [Ne, TrimSpace_eq_empty_iff]
  intro hall
  rw [hall c hc] at h
  exact Bool.noConfusion h

theorem len_of_ascii (s : String) (h : ∀ c ∈ s.data, c.toNat < 128) : len s = s.length := by
  obtain ⟨l⟩ := s
  simp only [len, String.utf8ByteSize_mk, String.length]
  exact utf8Len_of_ascii l h

/-! ## The paths of the violations of a section -/

theorem pathsOf_ite_entryIf_sublist (c c' : Prop) [Decidable c] [Decidable c'] (k m m' : String) :
    List.Sublist (pathsOf (if c then [(k, m)] else entryIf c' k m')) [k] := by
  split
  · simp [pathsOf]
  · exact pathsOf_entryIf_sublist _ _ _

theorem basicInformationViolations_sublist (basic : Option BasicInformation) :
    List.Sublist (pathsOf (basicInformationViolations basic)) (Section.paths .basicInformation) := by
  cases basic with
  | none => simp [basicInformationViolations, pathsOf, Section.paths]
  | some b =>
    simp only [basicInformationViolations, pathsOf_append]
    exact List.Sublist.cons _
      (((((pathsOf_ite_entryIf_sublist _ _ _ _ _).append (pathsOf_entryIf_sublist _ _ _)).append
        (pathsOf_entryIf_sublist _ _ _)).append (pathsOf_ite_entryIf_sublist _ _ _ _ _)).append
        (pathsOf_entryIf_sublist _ _ _))

theorem gpsViolations_sublist (gps : Option GPSCoordinates) :
    List.Sublist (pathsOf (gpsViolations gps))
      ["location.gps_coordinates", "location.gps_coordinates.latitude",
        "location.gps_coordinates.longitude"] := by
  cases gps with
  | none => simp [gpsViolations, pathsOf]
  | some g =>
    simp only [gpsViolations, pathsOf_append]
    exact List.Sublist.cons _
      ((pathsOf_entryIf_sublist _ _ _).append (pathsOf_entryIf_sublist _ _ _))

theorem locationViolations_sublist (location : Option Location) :
    List.Sublist (pathsOf (locationViolations location)) (Section.paths .location) := by
  cases location with
  | none => simp [locationViolations, pathsOf, Section.paths]
  | some l =>
    simp only [locationViolations, pathsOf_append]
    exact List.Sublist.cons _
      ((((gpsViolations_sublist _).append (pathsOf_entryIf_sublist _ _ _)).append
        (pathsOf_entryIf_sublist _ _ _)).append (pathsOf_entryIf_sublist _ _ _))

theorem operationalHoursViolations_sublist (oh : Option OperationalHours) :
    List.Sublist (pathsOf (operationalHoursViolations oh)) (Section.paths .operationalHours) := by
  cases oh with
  | none => simp [operationalHoursViolations, pathsOf, Section.paths]
  | some o =>
    simp only [operationalHoursViolations, pathsOf_append]
    exact List.Sublist.cons _
      (((pathsOf_entryIf_sublist _ _ _).append (pathsOf_entryIf_sublist _ _ _)).append
        (pathsOf_entryIf_sublist _ _ _))

theorem bankInformationViolations_sublist (bank : Option BankInformation) :
    List.Sublist (pathsOf (bankInformationViolations bank))
      ["tax_and_payment.bank_information",
        "tax_and_payment.bank_information.account_holder_name",
        "tax_and_payment.bank_information.bank_account_number",
        "tax_and_payment.bank_information.bank_ifsc_code"] := by
  cases bank with
  | none => simp [bankInformationViolations, pathsOf]
  | some b =>
    simp only [bankInformationViolations, pathsOf_append]
    exact List.Sublist.cons _
      (((pathsOf_entryIf_sublist _ _ _).append (pathsOf_entryIf_sublist _ _ _)).append
        (pathsOf_entryIf_sublist _ _ _))

theorem taxAndPaymentViolations_sublist (tp : Option TaxAndPayment) :
    List.Sublist (pathsOf (taxAndPaymentViolations tp)) (Section.paths .taxAndPayment) := by
  cases tp with
  | none => simp [taxAndPaymentViolations, pathsOf, Section.paths]
  | some t =>
    simp only [taxAndPaymentViolations, pathsOf_append]
    refine List.Sublist.cons _ ((pathsOf_entryIf_sublist _ _ _).append ?_)
    split
    · exact bankInformationViolations_sublist _
    · simp [pathsOf]

theorem deliveryTypeViolations_sublist (d : DeliveryConfiguration) :
    List.Sublist (pathsOf (deliveryTypeViolations d))
      ["delivery_configuration.delivery_radius_km", "delivery_configuration.delivery_locations",
        "delivery_configuration.delivery_location_type"] := by
  unfold deliveryTypeViolations
  split
  · exact (pathsOf_entryIf_sublist _ _ _).trans (by simp)
  · split
    · exact (pathsOf_entryIf_sublist _ _ _).trans (by simp)
    · split <;> simp [pathsOf]

theorem deliveryConfigurationViolations_sublist (d : Option DeliveryConfiguration) :
    List.Sublist (pathsOf (deliveryConfigurationViolations d))
      (Section.paths .deliveryConfiguration) := by
  cases d with
  | none => simp [deliveryConfigurationViolations, pathsOf, Section.paths]
  | some d =>
    simp only [deliveryConfigurationViolations]
    split
    · simp only [pathsOf_append]
      exact List.Sublist.cons _
        (((deliveryTypeViolations_sublist d).append (pathsOf_entryIf_sublist _ _ _)).append
          (pathsOf_entryIf_sublist _ _ _))
    · simp [pathsOf]

/-- The paths of the five sections are pairwise distinct. -/
theorem sectionPaths_nodup :
    (Section.paths .basicInformation ++ Section.paths .location ++
      Section.paths .operationalHours ++ Section.paths .taxAndPayment ++
      Section.paths .deliveryConfiguration).Nodup := by
  decide

theorem requestViolations_sublist (req : CreateStoreRequest) :
    List.Sublist (pathsOf (requestViolations req))
      (Section.paths .basicInformation ++ Section.paths .location ++
        Section.paths .operationalHours ++ Section.paths .taxAndPayment ++
        Section.paths .deliveryConfiguration) := by
  simp only [requestViolations, pathsOf_append]
  exact ((((basicInformationViolations_sublist _).append (locationViolations_sublist _)).append
    (operationalHoursViolations_sublist _)).append (taxAndPaymentViolations_sublist _)).append
    (deliveryConfigurationViolations_sublist _)

theorem requestViolations_nodup (req : CreateStoreRequest) :
    (pathsOf (requestViolations req)).Nodup :=
  (requestViolations_sublist req).nodup sectionPaths_nodup

/-! ## The orchestrator -/

theorem eq_mk_of_Errors (v : ValidationErrors) (l : List (String × String))
    (h : v.Errors = l) : v = ⟨l⟩ := by
  cases v; simp only at h; rw [h]

theorem validateCreateStoreRequest_eq (req : CreateStoreRequest) :
    validateCreateStoreRequest req =
      if (requestViolations req).length > 0 then some ⟨requestViolations req⟩ else none := by
  have h : validateDeliveryConfiguration req.DeliveryConfiguration
      (validateTaxAndPayment req.TaxAndPayment
        (validateOperationalHours req.OperationalHours
          (validateLocation req.Location
            (validateBasicInformation req.BasicInformation NewValidationErrors)))) =
      ⟨requestViolations req⟩ := by
    rw [validateBasicInformation_eq, validateLocation_eq, validateOperationalHours_eq,
      validateTaxAndPayment_eq, validateDeliveryConfiguration_eq]
    have h1 : addAll (addAll (addAll (addAll (addAll NewValidationErrors
        (basicInformationViolations req.BasicInformation))
        (locationViolations req.Location))
        (operationalHoursViolations req.OperationalHours))
        (taxAndPaymentViolations req.TaxAndPayment))
        (deliveryConfigurationViolations req.DeliveryConfiguration) =
        addAll NewValidationErrors (requestViolations req) := by
      simp only [requestViolations, addAll_append]
    rw [h1]
    exact eq_mk_of_Errors _ _ (addAll_New (requestViolations req) (requestViolations_nodup req))
  simp only [validateCreateStoreRequest, h, ValidationErrors.HasErrors, decide_eq_true_eq]

/-- The violation map of a request is the list of the violations of its sections. -/
theorem violations_validateCreateStoreRequest (req : CreateStoreRequest) :
    violations (validateCreateStoreRequest req) = requestViolations req := by
  rw [validateCreateStoreRequest_eq]
  split
  · rfl
  · rename_i h
    simp only [gt_iff_lt, not_lt, Nat.le_zero, List.length_eq_zero] at h
    simp [violations, h]

theorem validateCreateStoreRequest_eq_none_iff (req : CreateStoreRequest) :
    validateCreateStoreRequest req = none ↔ requestViolations req = [] := by
  rw [validateCreateStoreRequest_eq]
  cases h : requestViolations req <;> simp

theorem section_fresh (l : List (String × String)) (ks : List String)
    (h : List.Sublist (pathsOf l) ks) (hk : ks.Nodup) :
    (addAll NewValidationErrors l).Errors = l :=
  addAll_New l (h.nodup hk)

theorem validateBasicInformation_fresh (basic : Option BasicInformation) :
    (validateBasicInformation basic NewValidationErrors).Errors =
      basicInformationViolations basic := by
  rw [validateBasicInformation_eq]
  exact section_fresh _ _ (basicInformationViolations_sublist _) (by decide)

theorem validateLocation_fresh (location : Option Location) :
    (validateLocation location NewValidationErrors).Errors = locationViolations location := by
  rw [validateLocation_eq]
  exact section_fresh _ _ (locationViolations_sublist _) (by decide)

theorem validateOperationalHours_fresh (oh : Option OperationalHours) :
    (validateOperationalHours oh NewValidationErrors).Errors =
      operationalHoursViolations oh := by
  rw [validateOperationalHours_eq]
  exact section_fresh _ _ (operationalHoursViolations_sublist _) (by decide)

theorem validateTaxAndPayment_fresh (tp : Option TaxAndPayment) :
    (validateTaxAndPayment tp NewValidationErrors).Errors = taxAndPaymentViolations tp := by
  rw [validateTaxAndPayment_eq]
  exact section_fresh _ _ (taxAndPaymentViolations_sublist _) (by decide)

theorem validateDeliveryConfiguration_fresh (d : Option DeliveryConfiguration) :
    (validateDeliveryConfiguration d NewValidationErrors).Errors =
      deliveryConfigurationViolations d := by
  rw [validateDeliveryConfiguration_eq]
  exact section_fresh _ _ (deliveryConfigurationViolations_sublist _) (by decide)

/-! ## Requests that satisfy the rules -/

theorem entryIf_neg (c : Prop) [Decidable c] (k m : String) (h : ¬ c) : entryIf c k m = [] := by
  simp [entryIf, h]

theorem isValidURLOrBase64_of_ne_empty (s : String) (h : s ≠ "") :
    isValidURLOrBase64 s = true := by
  have : len s ≠ 0 := fun h0 => h ((len_eq_zero_iff s).1 h0)
  simp only [isValidURLOrBase64, Bool.or_eq_true, decide_eq_true_eq]
  exact Or.inr (Nat.pos_of_ne_zero this)

theorem not_blank_of_isE164Shape (s : String) (h : isE164Shape s = true) : TrimSpace s ≠ "" := by
  obtain ⟨l⟩ := s
  cases l with
  | nil => simp [isE164Shape] at h
  | cons c t =>
    refine TrimSpace_ne_empty_of_mem _ c (by simp) ?_
    by_cases hc : c = '+'
    · subst hc; decide
    · simp only [isE164Shape, hc, if_false, Bool.and_eq_true, decide_eq_true_eq,
        char_le_iff, Char.reduceToNat] at h
      rw [Bool.eq_false_iff, Ne, isSpace_iff]
      omega

theorem basicInformationViolations_of_rules (b : BasicInformation)
    (h : b.satisfiesRules atMost255Bytes) : basicInformationViolations (some b) = [] := by
  obtain ⟨h1, h2, h3, h4, h5⟩ := h
  have h4' := not_blank_of_isE164Shape _ h4
  have himg : ¬ (b.StoreImage ≠ "" ∧ (!isValidURLOrBase64 b.StoreImage) = true) := by
    rintro ⟨hi, hv⟩
    rw [isValidURLOrBase64_of_ne_empty _ hi] at hv
    exact Bool.noConfusion hv
  have hmgr : ¬ ((!b.IsManagerSameAsOwner) = true ∧ len (TrimSpace b.ShopManagerId) = 0) := by
    rintro ⟨hm, hl⟩
    rw [len_eq_zero_iff] at hl
    exact h5 (by simpa using hm) hl
  have h2' : ¬ len b.StoreName > 255 := by
    unfold atMost255Bytes at h2; omega
  have hv : ¬ (!isValidE164 b.ContactNumber) = true := by
    rw [isValidE164_eq_isE164Shape, h4]; decide
  have e1 : ¬ len (TrimSpace b.StoreName) = 0 := fun h => h1 ((len_eq_zero_iff _).1 h)
  have e3 : ¬ len (TrimSpace b.StoreType) = 0 := fun h => h3 ((len_eq_zero_iff _).1 h)
  have e4 : ¬ len (TrimSpace b.ContactNumber) = 0 := fun h => h4' ((len_eq_zero_iff _).1 h)
  simp only [basicInformationViolations, if_neg e1, if_neg e4, entryIf_neg _ _ _ e3,
    entryIf_neg _ _ _ h2', entryIf_neg _ _ _ himg, entryIf_neg _ _ _ hv,
    entryIf_neg _ _ _ hmgr, List.append_nil]

theorem locationViolations_of_rules (l : Location) (h : l.satisfiesRules) :
    locationViolations (some l) = [] := by
  obtain ⟨hg, h1, h2, h3⟩ := h
  cases hgps : l.GpsCoordinates with
  | none => simp [hgps] at hg
  | some gps =>
    simp only [hgps] at hg
    obtain ⟨ha, hb, hc, hd⟩ := hg
    have ha' := Number.lt_eq_false_of_le _ _ ha
    have hb' := Number.lt_eq_false_of_le _ _ hb
    have hc' := Number.lt_eq_false_of_le _ _ hc
    have hd' := Number.lt_eq_false_of_le _ _ hd
    simp [locationViolations, gpsViolations, hgps, entryIf, len_eq_zero_iff, h1, h2, h3,
      Number.gt, ha', hb', hc', hd']

theorem isAllowedPickupReadyTime_iff (s : String) :
    isAllowedPickupReadyTime s = true ↔ s ∈ allowedPickupReadyTimes := by
  simp only [isAllowedPickupReadyTime, allowedPickupReadyTimes, List.any_cons, List.any_nil,
    Bool.or_false, Bool.or_eq_true, decide_eq_true_eq, List.mem_cons, List.mem_singleton,
    List.not_mem_nil, or_false]
  constructor <;> (intro h; rcases h with h | h | h | h <;> simp [h])

theorem operationalHoursViolations_of_rules (o : OperationalHours) (h : o.satisfiesRules) :
    operationalHoursViolations (some o) = [] := by
  obtain ⟨h1, h2⟩ := h
  have hopen : ¬ (o.IsOpen_24Hours = false ∧ (len (TrimSpace o.OpeningTime) = 0 ∨
      (!isValidTimeFormat o.OpeningTime) = true)) := by
    rintro ⟨hf, hv⟩
    have ht := isTimeOfDay_of_isHMM _ (h1 hf).1
    rcases hv with hv | hv
    · exact not_blank_of_isTimeOfDay _ ht ((len_eq_zero_iff _).1 hv)
    · rw [isValidTimeFormat_eq, ht] at hv
      exact Bool.noConfusion hv
  have hclose : ¬ (o.IsOpen_24Hours = false ∧ (len (TrimSpace o.ClosingTime) = 0 ∨
      (!isValidTimeFormat o.ClosingTime) = true)) := by
    rintro ⟨hf, hv⟩
    have ht := isTimeOfDay_of_isHMM _ (h1 hf).2
    rcases hv with hv | hv
    · exact not_blank_of_isTimeOfDay _ ht ((len_eq_zero_iff _).1 hv)
    · rw [isValidTimeFormat_eq, ht] at hv
      exact Bool.noConfusion hv
  have hpick : ¬ (o.IsOwnPickupEnabled = true ∧
      (!isAllowedPickupReadyTime o.OwnPickupReadyTime) = true) := by
    rintro ⟨hf, hv⟩
    rw [(isAllowedPickupReadyTime_iff _).2 (h2 hf)] at hv
    exact Bool.noConfusion hv
  simp only [operationalHoursViolations, entryIf_neg _ _ _ hopen, entryIf_neg _ _ _ hclose,
    entryIf_neg _ _ _ hpick, List.append_nil]

theorem taxAndPaymentViolations_of_rules (t : TaxAndPayment)
    (h : t.satisfiesRules trimsTo11AsciiCharacters) : taxAndPaymentViolations (some t) = [] := by
  obtain ⟨h1, h2⟩ := h
  have hgst : ¬ (t.GstRegistered = true ∧ len (TrimSpace t.GstNumber) = 0) := by
    rintro ⟨hf, hl⟩
    exact h1 hf ((len_eq_zero_iff _).1 hl)
  simp only [taxAndPaymentViolations, entryIf_neg _ _ _ hgst, List.nil_append]
  split
  · rename_i hgw
    have h2' := h2 hgw
    cases hb : t.BankInformation with
    | none => simp [hb] at h2'
    | some bank =>
      simp only [hb] at h2'
      obtain ⟨ha, hn, hlen, hascii⟩ := h2'
      have hl : len (TrimSpace bank.BankIfscCode) = 11 := by
        rw [len_of_ascii _ hascii, hlen]
      simp [bankInformationViolations, entryIf, len_eq_zero_iff, ha, hn, hl]
  · rfl

theorem deliveryConfigurationViolations_of_rules (d : DeliveryConfiguration)
    (h : d.satisfiesRules) : deliveryConfigurationViolations (some d) = [] := by
  simp only [deliveryConfigurationViolations]
  split
  · rename_i he
    obtain ⟨ht, hr, hl, hm, hf⟩ := h he
    have hm' := Number.lt_eq_false_of_le _ _ hm
    have hf' := Number.lt_eq_false_of_le _ _ hf
    have htype : deliveryTypeViolations d = [] := by
      unfold deliveryTypeViolations
      split
      · rename_i h1
        have := Number.le_eq_false_of_lt _ _ (hr h1)
        simp [entryIf, this]
      · split
        · rename_i h2
          have := hl h2
          simp [entryIf, this]
        · split
          · rfl
          · rename_i h1 h2 h3
            simp only [allowedDeliveryLocationTypes, List.mem_cons, List.mem_singleton,
              List.not_mem_nil, or_false] at ht
            tauto
    simp [htype, entryIf, hm', hf']
  · rfl

theorem requestViolations_of_rules (req : CreateStoreRequest)
    (h : req.satisfiesRules atMost255Bytes trimsTo11AsciiCharacters) :
    requestViolations req = [] := by
  obtain ⟨b, l, o, t, d⟩ := req
  cases b <;> cases l <;> cases o <;> cases t <;> cases d <;>
    simp only [CreateStoreRequest.satisfiesRules] at h
  obtain ⟨hb, hl, ho, ht, hd⟩ := h
  simp [requestViolations, basicInformationViolations_of_rules _ hb,
    locationViolations_of_rules _ hl, operationalHoursViolations_of_rules _ ho,
    taxAndPaymentViolations_of_rules _ ht, deliveryConfigurationViolations_of_rules _ hd]

theorem sampleRequest_satisfiesRules (ifsc : String) (ifscOk : String → Prop) (h : ifscOk ifsc) :
    (sampleRequest ifsc).satisfiesRules atMost255Characters ifscOk ∧
    (sampleRequest ifsc).satisfiesRules atMost255Bytes ifscOk := by
  have hb : ∀ nameOk : String → Prop, nameOk "Corner Shop" →
      BasicInformation.satisfiesRules nameOk
        { StoreName := "Corner Shop", StoreType := "grocery", StoreImage := "",
          ContactNumber := "+14155552671", IsManagerSameAsOwner := true, ShopManagerId := "" } :=
    fun nameOk hn => ⟨by decide, hn, by decide, by decide, by decide⟩
  have hl : Location.satisfiesRules
      { GpsCoordinates := some { Latitude := .fin 13, Longitude := .fin 77 },
        Area := "Indiranagar", City := "Bengaluru", Pincode := "560038" } := by
    refine ⟨?_, by decide, by decide, by decide⟩
    simp [Number.le, Number.const]
    norm_num
  have ho : OperationalHours.satisfiesRules
      { IsOpen_24Hours := false, OpeningTime := "9:00", ClosingTime := "18:30",
        IsOwnPickupEnabled := true, OwnPickupReadyTime := "30 minutes" } :=
    ⟨fun _ => ⟨by decide, by decide⟩, fun _ => by decide⟩
  have ht : TaxAndPayment.satisfiesRules ifscOk
      { GstRegistered := true, GstNumber := "29ABCDE1234F1Z5", IsPaymentGatewayEnabled := true,
        BankInformation := some
          { AccountHolderName := "A. Kumar", BankAccountNumber := "000123456789",
            BankIfscCode := ifsc } } :=
    ⟨fun _ => (by decide : TrimSpace "29ABCDE1234F1Z5" ≠ ""),
      fun _ => ⟨(by decide : TrimSpace "A. Kumar" ≠ ""),
        (by decide : TrimSpace "000123456789" ≠ ""), h⟩⟩
  have hd : DeliveryConfiguration.satisfiesRules
      { IsDeliveryEnabled := true, DeliveryLocationType := "Radius", DeliveryRadiusKm := .fin 5,
        DeliveryLocations := [], FreeDeliveryMinOrder := .fin 0,
        DeliveryFeeIfMinNotMet := .fin 0 } := by
    intro _
    refine ⟨by decide, fun _ => ?_, fun h => ?_, ?_, ?_⟩
    · simp [Number.gt, Number.lt, Number.const]
    · exact absurd h (by decide)
    · simp [Number.le, Number.const]
    · simp [Number.le, Number.const]
  exact ⟨⟨hb _ (by unfold atMost255Characters; decide), hl, ho, ht, hd⟩,
    ⟨hb _ (by unfold atMost255Bytes; decide), hl, ho, ht, hd⟩⟩

/-! ## Sections -/

theorem mem_pathsOf_requestViolations (req : CreateStoreRequest) (p : String) :
    p ∈ pathsOf (requestViolations req) ↔ ∃ s : Section, p ∈ pathsOf (s.violations req) := by
  simp only [requestViolations, pathsOf_append, List.mem_append]
  constructor
  · rintro ((((h | h) | h) | h) | h)
    · exact ⟨.basicInformation, h⟩
    · exact ⟨.location, h⟩
    · exact ⟨.operationalHours, h⟩
    · exact ⟨.taxAndPayment, h⟩
    · exact ⟨.deliveryConfiguration, h⟩
  · rintro ⟨s, h⟩
    cases s <;> simp only [Section.violations] at h <;> tauto

theorem Section.violations_sublist (req : CreateStoreRequest) (s : Section) :
    List.Sublist (pathsOf (s.violations req)) s.paths := by
  cases s
  · exact basicInformationViolations_sublist _
  · exact locationViolations_sublist _
  · exact operationalHoursViolations_sublist _
  · exact taxAndPaymentViolations_sublist _
  · exact deliveryConfigurationViolations_sublist _

/-- The validator of an absent section records its path and nothing else. -/
theorem Section.violations_of_absent (req : CreateStoreRequest) (s : Section)
    (h : s.absent req = true) : pathsOf (s.violations req) = [s.path] := by
  obtain ⟨b, l, o, t, d⟩ := req
  cases s <;> simp only [Section.absent, Option.isNone_iff_eq_none] at h <;> subst h <;> rfl

/-- No path of a section starts with the path of another section and a dot, nor
equals it. -/
theorem Section.paths_prefix_free (s s' : Section) (h : s' ≠ s) :
    ∀ p ∈ s'.paths, p ≠ s.path ∧ HasPrefix p (s.path ++ ".") = false := by
  cases s <;> cases s' <;> first | exact absurd rfl h | decide

theorem Section.path_not_nested (s : Section) : HasPrefix s.path (s.path ++ ".") = false := by
  cases s <;> decide

/-! ## Reading the accumulator after `Add` -/

theorem mapGet_mapSet_self (l : List (String × String)) (k v : String) :
    mapGet (mapSet l k v) k = some v := by
  induction l with
  | nil => simp [mapSet, mapGet]
  | cons e rest ih =>
    obtain ⟨k', v'⟩ := e
    by_cases h : k' = k
    · simp [mapSet, mapGet, h]
    · simp [mapSet, mapGet, h, ih]

theorem mapGet_mapSet_of_ne (l : List (String × String)) (k v p : String) (h : p ≠ k) :
    mapGet (mapSet l k v) p = mapGet l p := by
  induction l with
  | nil =>
    have : ¬ k = p := fun hk => h hk.symm
    simp [mapSet, mapGet, this]
  | cons e rest ih =>
    obtain ⟨k', v'⟩ := e
    by_cases hk : k' = k
    · subst hk
      have : ¬ k' = p := fun hk => h hk.symm
      simp [mapSet, mapGet, this]
    · by_cases hp : k' = p
      · subst hp
        simp [mapSet, mapGet, hk]
      · simp [mapSet, mapGet, hk, hp, ih]

theorem length_mapSet_of_mem (l : List (String × String)) (k v : String)
    (h : k ∈ pathsOf l) : (mapSet l k v).length = l.length := by
  induction l with
  | nil => simp [pathsOf] at h
  | cons e rest ih =>
    obtain ⟨k', v'⟩ := e
    by_cases hk : k' = k
    · simp [mapSet, hk]
    · have hmem : k ∈ pathsOf rest := by
        simp only [pathsOf_cons, List.mem_cons] at h
        rcases h with h | h
        · exact absurd h.symm hk
        · exact h
      simp [mapSet, hk, ih hmem]

theorem length_mapSet_pos (l : List (String × String)) (k v : String) :
    0 < (mapSet l k v).length := by
  cases l with
  | nil => simp [mapSet]
  | cons e rest =>
    obtain ⟨k', v'⟩ := e
    by_cases hk : k' = k <;> simp [mapSet, hk]

theorem isValidURLOrBase64_of_HasPrefix (s : String) (h : HasPrefix s "http" = true) :
    isValidURLOrBase64 s = true := by
  simp [isValidURLOrBase64, h]

theorem store_image_not_mem_basicInformationViolations (basic : Option BasicInformation) :
    "basic_information.store_image" ∉ pathsOf (basicInformationViolations basic) := by
  cases basic with
  | none => simp [basicInformationViolations, pathsOf]
  | some b =>
    have himg : ¬ (b.StoreImage ≠ "" ∧ (!isValidURLOrBase64 b.StoreImage) = true) := by
      rintro ⟨hi, hv⟩
      rw [isValidURLOrBase64_of_ne_empty _ hi] at hv
      exact Bool.noConfusion hv
    simp only [basicInformationViolations, pathsOf_append, List.mem_append, mem_pathsOf_ite,
      mem_pathsOf_entryIf, pathsOf_cons, pathsOf_nil, List.mem_singleton, String.reduceEq,
      and_false, or_false, false_or, and_true, List.not_mem_nil]
    exact himg

/-! ## The service method -/

theorem requestViolations_eq_nil_iff (req : CreateStoreRequest) :
    requestViolations req = [] ↔
      basicInformationViolations req.BasicInformation = [] ∧
      locationViolations req.Location = [] ∧
      operationalHoursViolations req.OperationalHours = [] ∧
      taxAndPaymentViolations req.TaxAndPayment = [] ∧
      deliveryConfigurationViolations req.DeliveryConfiguration = [] := by
  simp only [requestViolations, List.append_eq_nil, and_assoc]

/-- A request that passes validation has all five sub-objects, and GPS coordinates. -/
theorem sections_present_of_valid (req : CreateStoreRequest)
    (h : validateCreateStoreRequest req = none) :
    ∃ b l gps o t d, req.BasicInformation = some b ∧ req.Location = some l ∧
      l.GpsCoordinates = some gps ∧ req.OperationalHours = some o ∧
      req.TaxAndPayment = some t ∧ req.DeliveryConfiguration = some d := by
  rw [validateCreateStoreRequest_eq_none_iff, requestViolations_eq_nil_iff] at h
  obtain ⟨hb, hl, ho, ht, hd⟩ := h
  obtain ⟨b, l, o, t, d⟩ := req
  cases b with
  | none => simp [basicInformationViolations] at hb
  | some b =>
  cases l with
  | none => simp [locationViolations] at hl
  | some l =>
  cases o with
  | none => simp [operationalHoursViolations] at ho
  | some o =>
  cases t with
  | none => simp [taxAndPaymentViolations] at ht
  | some t =>
  cases d with
  | none => simp [deliveryConfigurationViolations] at hd
  | some d =>
  cases hg : l.GpsCoordinates with
  | none => simp [locationViolations, hg, gpsViolations] at hl
  | some gps => exact ⟨b, l, gps, o, t, d, rfl, rfl, hg, rfl, rfl, rfl⟩

theorem CreateStore_of_errors (storeID : String) (now : Timestamp) (req : CreateStoreRequest)
    (v : ValidationErrors) (h : validateCreateStoreRequest req = some v) :
    CreateStore storeID now req =
      some (none, some ⟨400, "Validation failed.", v.Errors⟩) := by
  simp [CreateStore, h, customError.BadRequest, customError.New, ValidationErrors.Error]

theorem CreateStore_of_valid (storeID : String) (now : Timestamp) (req : CreateStoreRequest)
    (b : BasicInformation) (h : validateCreateStoreRequest req = none)
    (hb : req.BasicInformation = some b) :
    CreateStore storeID now req =
      some (some ⟨"success", "Store created successfully", some ⟨storeID, b.StoreName, now⟩⟩,
        none) := by
  simp [CreateStore, h, hb]

theorem sampleRequest_valid :
    validateCreateStoreRequest (sampleRequest "SBIN0001234") = none :=
  (validateCreateStoreRequest_eq_none_iff _).2
    (requestViolations_of_rules _ (sampleRequest_satisfiesRules _ _ ⟨by decide, by decide⟩).2)

/-! ## The instrumented run -/

theorem generic_addAll_nil {α : Type} [Accumulator α] (errs : α) :
    genericAddAll errs [] = errs := rfl

theorem generic_addAll_cons {α : Type} [Accumulator α] (errs : α) (e : String × String)
    (l : List (String × String)) :
    genericAddAll errs (e :: l) = genericAddAll (Accumulator.Add errs e.1 e.2) l := rfl

theorem generic_addAll_append {α : Type} [Accumulator α] (errs : α)
    (l₁ l₂ : List (String × String)) :
    genericAddAll errs (l₁ ++ l₂) = genericAddAll (genericAddAll errs l₁) l₂ := by
  simp [genericAddAll, List.foldl_append]

theorem generic_addAll_entryIf {α : Type} [Accumulator α] (errs : α) (c : Prop) [Decidable c]
    (k m : String) :
    genericAddAll errs (entryIf c k m) = if c then Accumulator.Add errs k m else errs := by
  unfold entryIf; split <;> rfl

theorem generic_addAll_ite {α : Type} [Accumulator α] (errs : α) (c : Prop) [Decidable c]
    (l₁ l₂ : List (String × String)) :
    genericAddAll errs (if c then l₁ else l₂) =
      if c then genericAddAll errs l₁ else genericAddAll errs l₂ := by
  split <;> rfl

theorem generic_validateBasicInformation_eq {α : Type} [Accumulator α]
    (basic : Option BasicInformation) (errs : α) :
    genericValidateBasicInformation basic errs =
      genericAddAll errs (basicInformationViolations basic) := by
  cases basic with
  | none => rfl
  | some b =>
    simp only [genericValidateBasicInformation, basicInformationViolations,
      generic_addAll_append, generic_addAll_entryIf, generic_addAll_ite, generic_addAll_cons,
      generic_addAll_nil]

theorem generic_validateLocation_eq {α : Type} [Accumulator α]
    (location : Option Location) (errs : α) :
    genericValidateLocation location errs =
      genericAddAll errs (locationViolations location) := by
  cases location with
  | none => rfl
  | some l =>
    simp only [genericValidateLocation, locationViolations, generic_addAll_append,
      generic_addAll_entryIf, generic_addAll_ite, generic_addAll_cons, generic_addAll_nil]
    cases l.GpsCoordinates <;>
    simp only [gpsViolations, generic_addAll_append,
      generic_addAll_entryIf, generic_addAll_ite, generic_addAll_cons, generic_addAll_nil]

theorem generic_validateOperationalHours_eq {α : Type} [Accumulator α]
    (oh : Option OperationalHours) (errs : α) :
    genericValidateOperationalHours oh errs =
      genericAddAll errs (operationalHoursViolations oh) := by
  cases oh with
  | none => rfl
  | some o =>
    simp only [genericValidateOperationalHours, operationalHoursViolations,
      generic_addAll_append, generic_addAll_entryIf, generic_addAll_ite, generic_addAll_cons,
      generic_addAll_nil]
    cases o.IsOpen_24Hours <;> simp

theorem generic_validateTaxAndPayment_eq {α : Type} [Accumulator α]
    (tp : Option TaxAndPayment) (errs : α) :
    genericValidateTaxAndPayment tp errs =
      genericAddAll errs (taxAndPaymentViolations tp) := by
  cases tp with
  | none => rfl
  | some t =>
    simp only [genericValidateTaxAndPayment, taxAndPaymentViolations, generic_addAll_append,
      generic_addAll_entryIf, generic_addAll_ite, generic_addAll_cons, generic_addAll_nil]
    cases t.BankInformation <;>
    simp only [bankInformationViolations, generic_addAll_append,
      generic_addAll_entryIf, generic_addAll_ite, generic_addAll_cons, generic_addAll_nil]

theorem generic_validateDeliveryConfiguration_eq {α : Type} [Accumulator α]
    (d : Option DeliveryConfiguration) (errs : α) :
    genericValidateDeliveryConfiguration d errs =
      genericAddAll errs (deliveryConfigurationViolations d) := by
  cases d with
  | none => rfl
  | some d =>
    simp only [genericValidateDeliveryConfiguration, deliveryConfigurationViolations,
      deliveryTypeViolations, generic_addAll_append,
      generic_addAll_entryIf, generic_addAll_ite, generic_addAll_cons, generic_addAll_nil]

theorem generic_validateSections_eq {α : Type} [Accumulator α] (req : CreateStoreRequest)
    (errs : α) :
    genericValidateSections req errs = genericAddAll errs (requestViolations req) := by
  simp only [genericValidateSections, generic_validateBasicInformation_eq,
    generic_validateLocation_eq, generic_validateOperationalHours_eq,
    generic_validateTaxAndPayment_eq, generic_validateDeliveryConfiguration_eq,
    requestViolations, generic_addAll_append]

/-- Over `ValidationErrors`, the generic validators are the validators. -/
theorem generic_validators_eq (req : CreateStoreRequest) (errs : ValidationErrors) :
    genericValidateBasicInformation req.BasicInformation errs =
      validateBasicInformation req.BasicInformation errs ∧
    genericValidateLocation req.Location errs = validateLocation req.Location errs ∧
    genericValidateOperationalHours req.OperationalHours errs =
      validateOperationalHours req.OperationalHours errs ∧
    genericValidateTaxAndPayment req.TaxAndPayment errs =
      validateTaxAndPayment req.TaxAndPayment errs ∧
    genericValidateDeliveryConfiguration req.DeliveryConfiguration errs =
      validateDeliveryConfiguration req.DeliveryConfiguration errs :=
  ⟨rfl, rfl, rfl, rfl, rfl⟩

/-- Logged addition of entries with pairwise distinct paths, none of them present
yet: the entries join the accumulator and the log, and nothing is overwritten. -/
theorem generic_addAll_traced (t : TracedErrors) (l : List (String × String))
    (hl : (pathsOf l).Nodup) (hd : ∀ k ∈ pathsOf l, k ∉ t.errors.paths) :
    genericAddAll t l =
      { errors := addAll t.errors l, calls := t.calls ++ l, overwritten := t.overwritten } := by
  induction l generalizing t with
  | nil => simp [generic_addAll_nil, addAll_nil]
  | cons e rest ih =>
    simp only [pathsOf_cons, List.nodup_cons] at hl
    have h1 : t.errors.has e.1 = false := by
      have := hd e.1 (by simp [pathsOf_cons])
      simp [ValidationErrors.has, this]
    rw [generic_addAll_cons, ih _ hl.2]
    · simp [Accumulator.Add, addAll_cons, h1]
    · intro k hk
      have hk' : k ∉ t.errors.paths := hd k (by simp [pathsOf_cons, hk])
      have hne : k ≠ e.1 := fun h => hl.1 (h ▸ hk)
      show k ∉ (t.errors.Add e.1 e.2).paths
      simp only [ValidationErrors.paths, ValidationErrors.Add, pathsOf, mem_paths_mapSet, not_or]
      exact ⟨hk', hne⟩

theorem tracedRun_eq (req : CreateStoreRequest) :
    tracedRun req =
      { errors := ⟨requestViolations req⟩, calls := requestViolations req, overwritten := [] } := by
  rw [tracedRun, generic_validateSections_eq,
    generic_addAll_traced _ _ (requestViolations_nodup req)]
  · simp only [List.nil_append]
    rw [eq_mk_of_Errors _ _ (addAll_New _ (requestViolations_nodup req))]
  · intro k _
    simp [ValidationErrors.paths, NewValidationErrors, pathsOf]

/-- The accumulator of the instrumented run goes through the validators proper. -/
theorem tracedRun_errors (req : CreateStoreRequest) :
    (tracedRun req).errors =
      validateDeliveryConfiguration req.DeliveryConfiguration
        (validateTaxAndPayment req.TaxAndPayment
          (validateOperationalHours req.OperationalHours
            (validateLocation req.Location
              (validateBasicInformation req.BasicInformation NewValidationErrors)))) := by
  rw [tracedRun_eq, validateBasicInformation_eq, validateLocation_eq,
    validateOperationalHours_eq, validateTaxAndPayment_eq, validateDeliveryConfiguration_eq]
  have h1 : addAll (addAll (addAll (addAll (addAll NewValidationErrors
      (basicInformationViolations req.BasicInformation))
      (locationViolations req.Location))
      (operationalHoursViolations req.OperationalHours))
      (taxAndPaymentViolations req.TaxAndPayment))
      (deliveryConfigurationViolations req.DeliveryConfiguration) =
      addAll NewValidationErrors (requestViolations req) := by
    simp only [requestViolations, addAll_append]
  rw [h1]
  exact (eq_mk_of_Errors _ _ (addAll_New (requestViolations req)
    (requestViolations_nodup req))).symm

/-! ## The claims -/

/-- C1 (the claim as stated fails): a request with all five sub-objects present
that satisfies every rule of the data model as listed, its IFSC code
`"SBIN000123 "` having exactly 11 characters, is rejected by
`validateCreateStoreRequest` with a violation at
`tax_and_payment.bank_information.bank_ifsc_code`: the validator measures the
code after trimming surrounding white space. -/
theorem C1_counterexample_ifsc_with_trailing_space :
    (sampleRequest "SBIN000123 ").satisfiesRules atMost255Characters has11Characters ∧
    violations (validateCreateStoreRequest (sampleRequest "SBIN000123 ")) =
      [("tax_and_payment.bank_information.bank_ifsc_code",
        "IFSC code must be exactly 11 characters in bank information.")] := by
  refine ⟨(sampleRequest_satisfiesRules _ _ (by unfold has11Characters; decide)).1, ?_⟩
  rw [violations_validateCreateStoreRequest]
  have h1 : basicInformationViolations (sampleRequest "SBIN000123 ").BasicInformation = [] := by
    decide
  have h3 : operationalHoursViolations (sampleRequest "SBIN000123 ").OperationalHours = [] := by
    decide
  have h4 : taxAndPaymentViolations (sampleRequest "SBIN000123 ").TaxAndPayment =
      [("tax_and_payment.bank_information.bank_ifsc_code",
        "IFSC code must be exactly 11 characters in bank information.")] := by
    decide
  have h2 : locationViolations (sampleRequest "SBIN000123 ").Location = [] :=
    locationViolations_of_rules _ (sampleRequest_satisfiesRules "" (fun _ => True) trivial).1.2.1
  have h5 : deliveryConfigurationViolations
      (sampleRequest "SBIN000123 ").DeliveryConfiguration = [] :=
    deliveryConfigurationViolations_of_rules _
      (sampleRequest_satisfiesRules "" (fun _ => True) trivial).1.2.2.2.2
  rw [requestViolations, h1, h2, h3, h4, h5]
  rfl

/-- C1 (amended): for every request in which all five sub-objects are present and
every applicable rule of the data model holds, with the store name at most 255
bytes long in UTF-8 and the IFSC code consisting, once surrounding white space is
trimmed, of exactly 11 ASCII characters, `validateCreateStoreRequest` returns
`nil`: success, with an empty violation set. -/
theorem C1_valid_request_passes (req : CreateStoreRequest)
    (h : req.satisfiesRules atMost255Bytes trimsTo11AsciiCharacters) :
    validateCreateStoreRequest req = none ∧ violations (validateCreateStoreRequest req) = [] := by
  have h0 := requestViolations_of_rules req h
  exact ⟨(validateCreateStoreRequest_eq_none_iff req).2 h0,
    (violations_validateCreateStoreRequest req).trans h0⟩

/-- C1, at a concrete input: the sample request with the IFSC code `"SBIN0001234"`. -/
theorem C1_valid_request_passes_witness :
    (sampleRequest "SBIN0001234").satisfiesRules atMost255Bytes trimsTo11AsciiCharacters ∧
    validateCreateStoreRequest (sampleRequest "SBIN0001234") = none ∧
    violations (validateCreateStoreRequest (sampleRequest "SBIN0001234")) = [] :=
  ⟨(sampleRequest_satisfiesRules _ _ ⟨by decide, by decide⟩).2,
    C1_valid_request_passes (sampleRequest "SBIN0001234")
      (sampleRequest_satisfiesRules _ _ ⟨by decide, by decide⟩).2⟩

/-- C2: for every request and each of the five sections, if the sub-object of
the section is absent, the violation set returned by `validateCreateStoreRequest`
contains exactly one entry whose key is the section's own path, and no entry
whose key starts with that path followed by a dot. -/
theorem C2_absent_section_reported_once (req : CreateStoreRequest) (s : Section)
    (h : s.absent req = true) :
    (pathsOf (violations (validateCreateStoreRequest req))).count s.path = 1 ∧
    ∀ p ∈ pathsOf (violations (validateCreateStoreRequest req)),
      HasPrefix p (s.path ++ ".") = false := by
  rw [violations_validateCreateStoreRequest]
  have habs := Section.violations_of_absent req s h
  constructor
  · apply List.count_eq_one_of_mem (requestViolations_nodup req)
    rw [mem_pathsOf_requestViolations]
    exact ⟨s, by rw [habs]; exact List.mem_singleton_self _⟩
  · intro p hp
    rw [mem_pathsOf_requestViolations] at hp
    obtain ⟨s', hs'⟩ := hp
    by_cases hss : s' = s
    · subst hss
      rw [habs, List.mem_singleton] at hs'
      rw [hs']
      exact Section.path_not_nested _
    · exact (Section.paths_prefix_free s s' hss p ((Section.violations_sublist req s').subset hs')).2

/-- C2, at a concrete input: the request with no sub-object at all, and the
section `location`. -/
theorem C2_absent_section_reported_once_witness :
    Section.absent ⟨none, none, none, none, none⟩ .location = true ∧
    (pathsOf (violations (validateCreateStoreRequest ⟨none, none, none, none, none⟩))).count
        "location" = 1 ∧
    ∀ p ∈ pathsOf (violations (validateCreateStoreRequest ⟨none, none, none, none, none⟩)),
      HasPrefix p "location." = false :=
  ⟨rfl, C2_absent_section_reported_once ⟨none, none, none, none, none⟩ .location rfl⟩

/-- C3: validation never short-circuits across sections. For every request, the
violation map produced by `validateCreateStoreRequest` (`nil` read as the empty
map) is the union of the five maps obtained by running each section validator
alone on a fresh accumulator (as lists of entries: their concatenation); the
five maps have pairwise disjoint key sets, the keys of the result are pairwise
distinct, and the number of entries of the result is the sum of the per-section
numbers of violations. -/
theorem C3_sections_accumulate_independently (req : CreateStoreRequest) :
    violations (validateCreateStoreRequest req) =
      (validateBasicInformation req.BasicInformation NewValidationErrors).Errors ++
      (validateLocation req.Location NewValidationErrors).Errors ++
      (validateOperationalHours req.OperationalHours NewValidationErrors).Errors ++
      (validateTaxAndPayment req.TaxAndPayment NewValidationErrors).Errors ++
      (validateDeliveryConfiguration req.DeliveryConfiguration NewValidationErrors).Errors ∧
    List.Pairwise List.Disjoint
      [(validateBasicInformation req.BasicInformation NewValidationErrors).paths,
        (validateLocation req.Location NewValidationErrors).paths,
        (validateOperationalHours req.OperationalHours NewValidationErrors).paths,
        (validateTaxAndPayment req.TaxAndPayment NewValidationErrors).paths,
        (validateDeliveryConfiguration req.DeliveryConfiguration NewValidationErrors).paths] ∧
    (pathsOf (violations (validateCreateStoreRequest req))).Nodup ∧
    (violations (validateCreateStoreRequest req)).length =
      (validateBasicInformation req.BasicInformation NewValidationErrors).Errors.length +
      (validateLocation req.Location NewValidationErrors).Errors.length +
      (validateOperationalHours req.OperationalHours NewValidationErrors).Errors.length +
      (validateTaxAndPayment req.TaxAndPayment NewValidationErrors).Errors.length +
      (validateDeliveryConfiguration req.DeliveryConfiguration NewValidationErrors).Errors.length := by
  simp only [ValidationErrors.paths, validateBasicInformation_fresh, validateLocation_fresh,
    validateOperationalHours_fresh, validateTaxAndPayment_fresh,
    validateDeliveryConfiguration_fresh, violations_validateCreateStoreRequest]
  have hnd := requestViolations_nodup req
  refine ⟨rfl, ?_, hnd, by simp [requestViolations]; omega⟩
  simp only [requestViolations, pathsOf_append, List.nodup_append] at hnd
  obtain ⟨⟨⟨⟨-, -, h12⟩, -, h123⟩, -, h1234⟩, -, h12345⟩ := hnd
  simp only [List.disjoint_append_left] at h123 h1234 h12345
  simp only [List.pairwise_cons, List.mem_cons, List.mem_singleton, List.not_mem_nil,
    forall_eq_or_imp, forall_eq, IsEmpty.forall_iff, implies_true, List.Pairwise.nil, and_true]
  tauto

/-- C4 (defect of the code): the store-name bound is applied to the byte length,
not to the number of characters. A store name of 86 characters, each of three
bytes in UTF-8, is non-blank and has far fewer than 255 characters, yet
`validateBasicInformation` records "Store name must be at most 255 characters."
at `basic_information.store_name`, because `len` of the name is 258. -/
theorem C4_store_name_bound_counts_bytes :
    (String.mk (List.replicate 86 '店')).length = 86 ∧
    TrimSpace ⟨List.replicate 86 '店'⟩ ≠ "" ∧
    len ⟨List.replicate 86 '店'⟩ = 258 ∧
    (validateBasicInformation
        (some ⟨⟨List.replicate 86 '店'⟩, "grocery", "", "+14155552671", true, ""⟩)
        NewValidationErrors).Errors =
      [("basic_information.store_name", "Store name must be at most 255 characters.")] := by
  have hne : TrimSpace ⟨List.replicate 86 '店'⟩ ≠ "" :=
    TrimSpace_ne_empty_of_mem _ '店' (by simp) (by decide)
  have hlen : len ⟨List.replicate 86 '店'⟩ = 258 := by
    rw [len_replicate]; decide
  refine ⟨by simp [String.length], hne, hlen, ?_⟩
  have h1 : ¬ len (TrimSpace ⟨List.replicate 86 '店'⟩) = 0 := by
    rw [len_eq_zero_iff]; exact hne
  have h2 : len (TrimSpace "grocery") ≠ 0 := by decide
  have h3 : len (TrimSpace "+14155552671") ≠ 0 := by decide
  have h4 : isValidE164 "+14155552671" = true := by decide
  simp only [validateBasicInformation, h1, h2, h3, h4, hlen]
  simp [ValidationErrors.Add, NewValidationErrors, mapSet]

/-- C5 (the claim as stated fails): the IFSC code `" SBIN0001234"` has 12
characters, yet with the payment gateway enabled and bank information present
no violation is recorded at `tax_and_payment.bank_information.bank_ifsc_code`,
because the validator trims the code before measuring it. -/
theorem C5_counterexample_twelve_characters_pass :
    (" SBIN0001234" : String).length = 12 ∧
    (validateTaxAndPayment
        (some ⟨false, "", true, some ⟨"A. Kumar", "000123456789", " SBIN0001234"⟩⟩)
        NewValidationErrors).has "tax_and_payment.bank_information.bank_ifsc_code" = false := by
  decide

/-- C5 (amended): with the payment gateway enabled and bank information present,
for an IFSC code whose trimmed form is made of ASCII characters,
`validateTaxAndPayment` records a violation at
`tax_and_payment.bank_information.bank_ifsc_code` if and only if the code, after
removal of surrounding white space, does not have exactly 11 characters. -/
theorem C5_ifsc_code_length (gstRegistered : Bool) (gstNumber : String) (bank : BankInformation)
    (errs : ValidationErrors)
    (hascii : ∀ c ∈ (TrimSpace bank.BankIfscCode).data, c.toNat < 128) :
    (validateTaxAndPayment (some ⟨gstRegistered, gstNumber, true, some bank⟩) errs).has
        "tax_and_payment.bank_information.bank_ifsc_code" = true ↔
      errs.has "tax_and_payment.bank_information.bank_ifsc_code" = true ∨
        (TrimSpace bank.BankIfscCode).length ≠ 11 := by
  rw [validateTaxAndPayment_has, ← len_of_ascii _ hascii]
  simp [taxAndPaymentViolations, bankInformationViolations, pathsOf_append, pathsOf_cons,
    pathsOf_nil, mem_pathsOf_entryIf, mem_pathsOf_ite]

/-- C5, at a concrete input: the 11-character code `"SBIN0001234"`. -/
theorem C5_ifsc_code_length_witness :
    ((validateTaxAndPayment
        (some ⟨false, "", true, some ⟨"A. Kumar", "000123456789", "SBIN0001234"⟩⟩)
        NewValidationErrors).has "tax_and_payment.bank_information.bank_ifsc_code" = true ↔
      NewValidationErrors.has "tax_and_payment.bank_information.bank_ifsc_code" = true ∨
        (TrimSpace "SBIN0001234").length ≠ 11) :=
  C5_ifsc_code_length false "" ⟨"A. Kumar", "000123456789", "SBIN0001234"⟩ NewValidationErrors
    (by decide)

/-- C6 (the claim as stated fails): the opening time `"9:5"` is not of the form
`H:MM` or `HH:MM` (its minute has one digit), yet with `is_open_24_hours` false
no violation is recorded at `operational_hours.opening_time`. -/
theorem C6_counterexample_one_digit_minute :
    isHMM "9:5" = false ∧
    (validateOperationalHours (some ⟨false, "9:5", "18:30", false, ""⟩)
      NewValidationErrors).has "operational_hours.opening_time" = false := by
  decide

/-- C6 (amended): when `is_open_24_hours` is false, `validateOperationalHours`
records a violation at `operational_hours.opening_time` (respectively
`closing_time`) if and only if the value is not a one- or two-digit hour in
0..23, a colon and a one- or two-digit minute in 0..59; `"25:00"` is not of that
form and `"18:30"` is. When `is_open_24_hours` is true neither path is recorded. -/
theorem C6_time_format (opening closing : String) (pickup : Bool) (ready : String)
    (errs : ValidationErrors) :
    ((validateOperationalHours (some ⟨false, opening, closing, pickup, ready⟩) errs).has
        "operational_hours.opening_time" = true ↔
      errs.has "operational_hours.opening_time" = true ∨ isTimeOfDay opening = false) ∧
    ((validateOperationalHours (some ⟨false, opening, closing, pickup, ready⟩) errs).has
        "operational_hours.closing_time" = true ↔
      errs.has "operational_hours.closing_time" = true ∨ isTimeOfDay closing = false) ∧
    isTimeOfDay "25:00" = false ∧ isTimeOfDay "18:30" = true ∧
    (validateOperationalHours (some ⟨true, opening, closing, pickup, ready⟩) errs).has
        "operational_hours.opening_time" = errs.has "operational_hours.opening_time" ∧
    (validateOperationalHours (some ⟨true, opening, closing, pickup, ready⟩) errs).has
        "operational_hours.closing_time" = errs.has "operational_hours.closing_time" := by
  have hblank : ∀ s : String, TrimSpace s = "" → isTimeOfDay s = false := by
    intro s hs
    by_contra h
    exact not_blank_of_isTimeOfDay s (by simpa using h) hs
  refine ⟨?_, ?_, by decide, by decide, ?_, ?_⟩
  · rw [validateOperationalHours_has]
    simp only [operationalHoursViolations, pathsOf_append, pathsOf_cons,
      pathsOf_nil, mem_pathsOf_entryIf, mem_pathsOf_ite, len_eq_zero_iff, isValidTimeFormat_eq,
      List.mem_append, String.reduceEq, and_false, and_true, or_false, true_and,
      Bool.not_eq_true', Bool.not_eq_true]
    constructor
    · rintro (h | h | h)
      · exact Or.inl h
      · exact Or.inr (hblank _ h)
      · exact Or.inr h
    · rintro (h | h)
      · exact Or.inl h
      · exact Or.inr (Or.inr h)
  · rw [validateOperationalHours_has]
    simp only [operationalHoursViolations, pathsOf_append, pathsOf_cons,
      pathsOf_nil, mem_pathsOf_entryIf, mem_pathsOf_ite, len_eq_zero_iff, isValidTimeFormat_eq,
      List.mem_append, String.reduceEq, and_false, and_true, or_false, false_or, true_and,
      Bool.not_eq_true', Bool.not_eq_true]
    constructor
    · rintro (h | h | h)
      · exact Or.inl h
      · exact Or.inr (hblank _ h)
      · exact Or.inr h
    · rintro (h | h)
      · exact Or.inl h
      · exact Or.inr (Or.inr h)
  · rw [Bool.eq_iff_iff, validateOperationalHours_has]
    simp [operationalHoursViolations, pathsOf_append, pathsOf_cons,
      pathsOf_nil, mem_pathsOf_entryIf, mem_pathsOf_ite]
  · rw [Bool.eq_iff_iff, validateOperationalHours_has]
    simp [operationalHoursViolations, pathsOf_append, pathsOf_cons,
      pathsOf_nil, mem_pathsOf_entryIf, mem_pathsOf_ite]

/-- C7: `isValidE164` returns true exactly for the strings made of an optional
single leading `+`, a digit 1-9 and between 1 and 14 further ASCII digits, and
nothing else; and `validateBasicInformation` records a violation at
`basic_information.contact_number` exactly when the contact number is blank or
fails this shape. -/
theorem C7_contact_number_e164 (basic : BasicInformation) (errs : ValidationErrors) :
    (∀ s : String, isValidE164 s = isE164Shape s) ∧
    ((validateBasicInformation (some basic) errs).has "basic_information.contact_number" = true ↔
      errs.has "basic_information.contact_number" = true ∨
        TrimSpace basic.ContactNumber = "" ∨ isE164Shape basic.ContactNumber = false) := by
  refine ⟨isValidE164_eq_isE164Shape, ?_⟩
  rw [validateBasicInformation_has]
  simp only [basicInformationViolations, pathsOf_append, pathsOf_cons,
    pathsOf_nil, mem_pathsOf_entryIf, mem_pathsOf_ite, len_eq_zero_iff,
    isValidE164_eq_isE164Shape, List.mem_append, List.mem_cons, List.not_mem_nil,
    String.reduceEq, and_false, and_true, or_false, false_or, true_and,
    Bool.not_eq_true', Bool.not_eq_true]
  by_cases hb : TrimSpace basic.ContactNumber = "" <;> simp [hb]

/-- C8: coordinate bounds are inclusive. For every location with GPS coordinates
present, `validateLocation` records a violation at
`location.gps_coordinates.latitude` if and only if latitude < -90 or
latitude > 90, and at `location.gps_coordinates.longitude` if and only if
longitude < -180 or longitude > 180, each check reading its own coordinate only.
Latitudes -90 and 90 record no violation; the doubles nearest to -90.0001 and
90.0001 (3166597006432089 / 2^45 in absolute value) record one. -/
theorem C8_coordinate_bounds (gps : GPSCoordinates) (area city pincode : String)
    (errs : ValidationErrors) :
    ((validateLocation (some ⟨some gps, area, city, pincode⟩) errs).has
        "location.gps_coordinates.latitude" = true ↔
      errs.has "location.gps_coordinates.latitude" = true ∨
        (gps.Latitude.lt (Number.const (-90)) = true ∨
          gps.Latitude.gt (Number.const 90) = true)) ∧
    ((validateLocation (some ⟨some gps, area, city, pincode⟩) errs).has
        "location.gps_coordinates.longitude" = true ↔
      errs.has "location.gps_coordinates.longitude" = true ∨
        (gps.Longitude.lt (Number.const (-180)) = true ∨
          gps.Longitude.gt (Number.const 180) = true)) ∧
    (∀ lat ∈ [Number.fin (-90), Number.fin 90],
      (validateLocation (some ⟨some ⟨lat, gps.Longitude⟩, area, city, pincode⟩)
        NewValidationErrors).has "location.gps_coordinates.latitude" = false) ∧
    (∀ lat ∈ [Number.fin (-3166597006432089 / 35184372088832),
        Number.fin (3166597006432089 / 35184372088832)],
      (validateLocation (some ⟨some ⟨lat, gps.Longitude⟩, area, city, pincode⟩)
        NewValidationErrors).has "location.gps_coordinates.latitude" = true) := by
  have hlat : ∀ (g : GPSCoordinates) (e : ValidationErrors),
      ((validateLocation (some ⟨some g, area, city, pincode⟩) e).has
        "location.gps_coordinates.latitude" = true ↔
      e.has "location.gps_coordinates.latitude" = true ∨
        (g.Latitude.lt (Number.const (-90)) = true ∨ g.Latitude.gt (Number.const 90) = true)) := by
    intro g e
    rw [validateLocation_has]
    simp [locationViolations, gpsViolations, pathsOf_append, pathsOf_cons,
      pathsOf_nil, mem_pathsOf_entryIf, mem_pathsOf_ite]
  refine ⟨hlat gps errs, ?_, ?_, ?_⟩
  · rw [validateLocation_has]
    simp [locationViolations, gpsViolations, pathsOf_append, pathsOf_cons,
      pathsOf_nil, mem_pathsOf_entryIf, mem_pathsOf_ite]
  · intro lat hmem
    rw [Bool.eq_false_iff, Ne, hlat]
    simp only [List.mem_cons, List.mem_singleton, List.not_mem_nil, or_false] at hmem
    rcases hmem with rfl | rfl <;>
      simp [has_New, Number.lt, Number.gt, Number.const]
  · intro lat hmem
    rw [hlat]
    simp only [List.mem_cons, List.mem_singleton, List.not_mem_nil, or_false] at hmem
    rcases hmem with rfl | rfl <;>
      simp [has_New, Number.lt, Number.gt, Number.const] <;> norm_num

/-- C9: for every basic information object, if `is_manager_same_as_owner` is true
no violation is recorded at `basic_information.shop_manager_id` whatever the
manager id is; if it is false a violation is recorded at that path if and only
if the manager id is empty after trimming surrounding white space. -/
theorem C9_manager_id_conditionally_required
    (name type image contact managerId : String) (errs : ValidationErrors) :
    (validateBasicInformation (some ⟨name, type, image, contact, true, managerId⟩) errs).has
        "basic_information.shop_manager_id" = errs.has "basic_information.shop_manager_id" ∧
    ((validateBasicInformation (some ⟨name, type, image, contact, false, managerId⟩) errs).has
        "basic_information.shop_manager_id" = true ↔
      errs.has "basic_information.shop_manager_id" = true ∨ TrimSpace managerId = "") := by
  constructor
  · rw [Bool.eq_iff_iff, validateBasicInformation_has]
    simp [basicInformationViolations, pathsOf_append, pathsOf_cons, pathsOf_nil,
      mem_pathsOf_entryIf, mem_pathsOf_ite]
  · rw [validateBasicInformation_has]
    simp [basicInformationViolations, pathsOf_append, pathsOf_cons, pathsOf_nil,
      mem_pathsOf_entryIf, mem_pathsOf_ite, len_eq_zero_iff]

/-- C10: with delivery enabled, `validateDeliveryConfiguration` records a
violation at `delivery_configuration.delivery_location_type` if and only if the
type is not exactly one of "PAN India", "Radius", "City", "International" (so
"Moon" is a violation); and when the type is "PAN India" no violation is
recorded at `delivery_location_type`, `delivery_radius_km` or
`delivery_locations`, for any values of the radius and locations fields. -/
theorem C10_delivery_location_type (type : String) (radius : Number) (locations : List String)
    (minOrder fee : Number) (enabled : Bool) (errs : ValidationErrors) :
    ((validateDeliveryConfiguration (some ⟨true, type, radius, locations, minOrder, fee⟩) errs).has
        "delivery_configuration.delivery_location_type" = true ↔
      errs.has "delivery_configuration.delivery_location_type" = true ∨
        type ∉ ["PAN India", "Radius", "City", "International"]) ∧
    (validateDeliveryConfiguration (some ⟨true, "Moon", radius, locations, minOrder, fee⟩)
        NewValidationErrors).has "delivery_configuration.delivery_location_type" = true ∧
    (∀ p ∈ ["delivery_configuration.delivery_location_type",
        "delivery_configuration.delivery_radius_km", "delivery_configuration.delivery_locations"],
      (validateDeliveryConfiguration
        (some ⟨enabled, "PAN India", radius, locations, minOrder, fee⟩) errs).has p =
          errs.has p) := by
  refine ⟨?_, ?_, ?_⟩
  · rw [validateDeliveryConfiguration_has]
    simp only [deliveryConfigurationViolations, deliveryTypeViolations, if_true]
    by_cases h1 : type = "Radius"
    · simp [h1, pathsOf_append, pathsOf_cons, pathsOf_nil, mem_pathsOf_entryIf]
    · by_cases h2 : type = "City"
      · simp [h2, pathsOf_append, pathsOf_cons, pathsOf_nil, mem_pathsOf_entryIf]
      · by_cases h3 : type = "International"
        · simp [h3, pathsOf_append, pathsOf_cons, pathsOf_nil, mem_pathsOf_entryIf]
        · by_cases h4 : type = "PAN India"
          · simp [h4, pathsOf_append, pathsOf_cons, pathsOf_nil, mem_pathsOf_entryIf]
          · simp [h1, h2, h3, h4, pathsOf_append, pathsOf_cons, pathsOf_nil,
              mem_pathsOf_entryIf]
  · rw [validateDeliveryConfiguration_has]
    simp [deliveryConfigurationViolations, deliveryTypeViolations, pathsOf_append,
      pathsOf_cons, pathsOf_nil, mem_pathsOf_entryIf]
  · intro p hp
    rw [Bool.eq_iff_iff, validateDeliveryConfiguration_has]
    simp only [List.mem_cons, List.mem_singleton, List.not_mem_nil, or_false] at hp
    cases enabled <;>
      rcases hp with rfl | rfl | rfl <;>
      simp [deliveryConfigurationViolations, deliveryTypeViolations, pathsOf_append,
        pathsOf_cons, pathsOf_nil, mem_pathsOf_entryIf]

/-- C11: nested presence-then-validate. For every tax-and-payment object with
`is_payment_gateway_enabled` true and bank information absent,
`validateTaxAndPayment` records exactly one entry at
`tax_and_payment.bank_information` and no entry at any path under
`tax_and_payment.bank_information.`; for every location with GPS coordinates
absent, `validateLocation` records exactly one entry at
`location.gps_coordinates` and none at any path under it (latitude, longitude),
while area, city and pincode are still validated. -/
theorem C11_absent_nested_object_reported_once (gstRegistered : Bool)
    (gstNumber area city pincode : String) (errs : ValidationErrors) :
    (pathsOf (validateTaxAndPayment (some ⟨gstRegistered, gstNumber, true, none⟩)
        NewValidationErrors).Errors).count "tax_and_payment.bank_information" = 1 ∧
    (∀ p, HasPrefix p "tax_and_payment.bank_information." = true →
      (validateTaxAndPayment (some ⟨gstRegistered, gstNumber, true, none⟩) errs).has p =
        errs.has p) ∧
    (pathsOf (validateLocation (some ⟨none, area, city, pincode⟩)
        NewValidationErrors).Errors).count "location.gps_coordinates" = 1 ∧
    (∀ p, HasPrefix p "location.gps_coordinates." = true →
      (validateLocation (some ⟨none, area, city, pincode⟩) errs).has p = errs.has p) ∧
    ((validateLocation (some ⟨none, area, city, pincode⟩) errs).has "location.area" = true ↔
      errs.has "location.area" = true ∨ TrimSpace area = "") ∧
    ((validateLocation (some ⟨none, area, city, pincode⟩) errs).has "location.city" = true ↔
      errs.has "location.city" = true ∨ TrimSpace city = "") ∧
    ((validateLocation (some ⟨none, area, city, pincode⟩) errs).has "location.pincode" = true ↔
      errs.has "location.pincode" = true ∨ TrimSpace pincode = "") := by
  refine ⟨?_, ?_, ?_, ?_, ?_, ?_, ?_⟩
  · rw [validateTaxAndPayment_fresh]
    simp only [taxAndPaymentViolations, bankInformationViolations, if_true, entryIf]
    split <;> decide
  · intro p hp
    rw [Bool.eq_iff_iff, validateTaxAndPayment_has]
    simp only [taxAndPaymentViolations, bankInformationViolations, if_true, pathsOf_append,
      pathsOf_cons, pathsOf_nil, List.mem_append, mem_pathsOf_entryIf, List.mem_singleton]
    constructor
    · rintro (h | ⟨-, rfl⟩ | rfl)
      · exact h
      · exact absurd hp (by decide)
      · exact absurd hp (by decide)
    · exact Or.inl
  · rw [validateLocation_fresh]
    simp only [locationViolations, gpsViolations, entryIf]
    split <;> split <;> split <;> decide
  · intro p hp
    rw [Bool.eq_iff_iff, validateLocation_has]
    simp only [locationViolations, gpsViolations, pathsOf_append,
      pathsOf_cons, pathsOf_nil, List.mem_append, mem_pathsOf_entryIf, List.mem_singleton]
    constructor
    · rintro (h | ((rfl | ⟨-, rfl⟩) | ⟨-, rfl⟩) | ⟨-, rfl⟩)
      · exact h
      all_goals exact absurd hp (by decide)
    · exact Or.inl
  · rw [validateLocation_has]
    simp [locationViolations, gpsViolations, pathsOf_append, pathsOf_cons, pathsOf_nil,
      mem_pathsOf_entryIf, len_eq_zero_iff]
  · rw [validateLocation_has]
    simp [locationViolations, gpsViolations, pathsOf_append, pathsOf_cons, pathsOf_nil,
      mem_pathsOf_entryIf, len_eq_zero_iff]
  · rw [validateLocation_has]
    simp [locationViolations, gpsViolations, pathsOf_append, pathsOf_cons, pathsOf_nil,
      mem_pathsOf_entryIf, len_eq_zero_iff]

/-- C12: whenever `validateCreateStoreRequest` reports at least one violation
(returns a non-nil, non-empty violation set), `CreateStore` returns no response
and an error that is a `CustomError` with `StatusCode` 400, `Message`
"Validation failed." and `Details` equal to the field-path-to-message mapping
of the violation set, unchanged; whenever it reports none, `CreateStore` returns
a response with `Status` "success" whose `StoreName` is the store name of the
request, and a nil error. -/
theorem C12_CreateStore_outcomes (storeID : String) (now : Timestamp)
    (req : CreateStoreRequest) :
    (∀ v, validateCreateStoreRequest req = some v →
      v.Errors ≠ [] ∧
      CreateStore storeID now req =
        some (none, some ⟨400, "Validation failed.", v.Errors⟩)) ∧
    (validateCreateStoreRequest req = none →
      ∃ basic, req.BasicInformation = some basic ∧
        CreateStore storeID now req =
          some (some ⟨"success", "Store created successfully",
            some ⟨storeID, basic.StoreName, now⟩⟩, none)) := by
  constructor
  · intro v hv
    refine ⟨?_, CreateStore_of_errors storeID now req v hv⟩
    rw [validateCreateStoreRequest_eq] at hv
    split at hv
    · rename_i hlen
      cases hv
      intro h0
      have h1 : requestViolations req = [] := h0
      rw [h1] at hlen
      exact absurd hlen (by decide)
    · cases hv
  · intro h
    obtain ⟨b, l, gps, o, t, d, hb, -⟩ := sections_present_of_valid req h
    exact ⟨b, hb, CreateStore_of_valid storeID now req b h hb⟩

/-- C13: the contract of the error accumulator. A fresh accumulator from
`NewValidationErrors` has no errors. After `Add field message`, `HasErrors` is
true, the entry at `field` is `message`, and the entry at every other path is
unchanged. A second `Add` at the same path replaces the earlier message
(last write wins), leaves the other paths as they were and does not change the
number of entries. -/
theorem C13_accumulator_contract (v : ValidationErrors) (field message later : String) :
    NewValidationErrors.HasErrors = false ∧
    (v.Add field message).HasErrors = true ∧
    (v.Add field message).get field = some message ∧
    (∀ path, path ≠ field → (v.Add field message).get path = v.get path) ∧
    ((v.Add field message).Add field later).get field = some later ∧
    (∀ path, path ≠ field →
      ((v.Add field message).Add field later).get path = v.get path) ∧
    ((v.Add field message).Add field later).Errors.length =
      (v.Add field message).Errors.length := by
  refine ⟨rfl, ?_, ?_, ?_, ?_, ?_, ?_⟩
  · simp only [ValidationErrors.HasErrors, ValidationErrors.Add, decide_eq_true_eq]
    exact length_mapSet_pos _ _ _
  · exact mapGet_mapSet_self _ _ _
  · intro path h
    exact mapGet_mapSet_of_ne _ _ _ _ h
  · exact mapGet_mapSet_self _ _ _
  · intro path h
    simp only [ValidationErrors.get, ValidationErrors.Add]
    rw [mapGet_mapSet_of_ne _ _ _ _ h, mapGet_mapSet_of_ne _ _ _ _ h]
  · simp only [ValidationErrors.Add]
    apply length_mapSet_of_mem
    show field ∈ List.map Prod.fst (mapSet v.Errors field message)
    rw [mem_paths_mapSet]
    exact Or.inr rfl

/-- C14: the URL-or-blob rule is fully permissive. `isValidURLOrBase64` returns
true for every string beginning with "http" and for every non-empty string, so
for every request the violation set returned by `validateCreateStoreRequest`
has no entry at `basic_information.store_image`, and `validateBasicInformation`
never records one, whatever the store image is (the empty string included). -/
theorem C14_store_image_always_accepted (req : CreateStoreRequest) (errs : ValidationErrors) :
    (∀ s, HasPrefix s "http" = true → isValidURLOrBase64 s = true) ∧
    (∀ s, s ≠ "" → isValidURLOrBase64 s = true) ∧
    "basic_information.store_image" ∉ pathsOf (violations (validateCreateStoreRequest req)) ∧
    (validateBasicInformation req.BasicInformation errs).has "basic_information.store_image" =
      errs.has "basic_information.store_image" := by
  refine ⟨isValidURLOrBase64_of_HasPrefix, isValidURLOrBase64_of_ne_empty, ?_, ?_⟩
  · rw [violations_validateCreateStoreRequest, mem_pathsOf_requestViolations]
    rintro ⟨s, hs⟩
    cases s
    · exact store_image_not_mem_basicInformationViolations _ hs
    all_goals
      have := (Section.violations_sublist req _).subset hs
      revert this
      decide
  · rw [Bool.eq_iff_iff, validateBasicInformation_has]
    constructor
    · rintro (h | h)
      · exact h
      · exact absurd h (store_image_not_mem_basicInformationViolations _)
    · exact Or.inl

/-- C15: no violation is ever silently dropped. In one run of
`validateCreateStoreRequest`, with the calls of `Add` logged, every call of `Add`
targets a path that has no entry yet in the accumulator (no call overwrites), so
the entries of the result are exactly the logged calls, in order, and the number
of entries of the result equals the number of violations recorded. The logged
run goes through the validators proper and ends in the violation set that
`validateCreateStoreRequest` returns. -/
theorem C15_no_violation_dropped (req : CreateStoreRequest) :
    (tracedRun req).errors =
      validateDeliveryConfiguration req.DeliveryConfiguration
        (validateTaxAndPayment req.TaxAndPayment
          (validateOperationalHours req.OperationalHours
            (validateLocation req.Location
              (validateBasicInformation req.BasicInformation NewValidationErrors)))) ∧
    violations (validateCreateStoreRequest req) = (tracedRun req).errors.Errors ∧
    (tracedRun req).overwritten = [] ∧
    (tracedRun req).errors.Errors = (tracedRun req).calls ∧
    (violations (validateCreateStoreRequest req)).length = (tracedRun req).calls.length := by
  refine ⟨tracedRun_errors req, ?_⟩
  rw [tracedRun_eq, violations_validateCreateStoreRequest]
  exact ⟨rfl, rfl, rfl, rfl⟩

/-- C16: with delivery enabled, when the location type is "Radius" a violation is
recorded at `delivery_configuration.delivery_radius_km` if and only if the
radius is zero or negative (`<= 0`, which for a finite radius means: not
positive), and never at `delivery_locations`; when the type is "City" or
"International" a violation is recorded at
`delivery_configuration.delivery_locations` if and only if the list of delivery
locations is empty, and never at `delivery_radius_km`. -/
theorem C16_type_specific_delivery_fields (radius : Number) (locations : List String)
    (minOrder fee : Number) (errs : ValidationErrors) :
    ((validateDeliveryConfiguration (some ⟨true, "Radius", radius, locations, minOrder, fee⟩)
        errs).has "delivery_configuration.delivery_radius_km" = true ↔
      errs.has "delivery_configuration.delivery_radius_km" = true ∨
        radius.le (Number.const 0) = true) ∧
    (validateDeliveryConfiguration (some ⟨true, "Radius", radius, locations, minOrder, fee⟩)
        errs).has "delivery_configuration.delivery_locations" =
      errs.has "delivery_configuration.delivery_locations" ∧
    (∀ type ∈ ["City", "International"],
      ((validateDeliveryConfiguration (some ⟨true, type, radius, locations, minOrder, fee⟩)
          errs).has "delivery_configuration.delivery_locations" = true ↔
        errs.has "delivery_configuration.delivery_locations" = true ∨ locations = []) ∧
      (validateDeliveryConfiguration (some ⟨true, type, radius, locations, minOrder, fee⟩)
          errs).has "delivery_configuration.delivery_radius_km" =
        errs.has "delivery_configuration.delivery_radius_km") ∧
    (∀ q : ℚ, (Number.fin q).le (Number.const 0) = true ↔ ¬ 0 < q) := by
  refine ⟨?_, ?_, ?_, ?_⟩
  · rw [validateDeliveryConfiguration_has]
    simp [deliveryConfigurationViolations, deliveryTypeViolations, pathsOf_append,
      pathsOf_cons, pathsOf_nil, mem_pathsOf_entryIf]
  · rw [Bool.eq_iff_iff, validateDeliveryConfiguration_has]
    simp [deliveryConfigurationViolations, deliveryTypeViolations, pathsOf_append,
      pathsOf_cons, pathsOf_nil, mem_pathsOf_entryIf]
  · intro type ht
    simp only [List.mem_cons, List.mem_singleton, List.not_mem_nil, or_false] at ht
    rcases ht with rfl | rfl
    · constructor
      · rw [validateDeliveryConfiguration_has]
        simp [deliveryConfigurationViolations, deliveryTypeViolations, pathsOf_append,
          pathsOf_cons, pathsOf_nil, mem_pathsOf_entryIf]
      · rw [Bool.eq_iff_iff, validateDeliveryConfiguration_has]
        simp [deliveryConfigurationViolations, deliveryTypeViolations, pathsOf_append,
          pathsOf_cons, pathsOf_nil, mem_pathsOf_entryIf]
    · constructor
      · rw [validateDeliveryConfiguration_has]
        simp [deliveryConfigurationViolations, deliveryTypeViolations, pathsOf_append,
          pathsOf_cons, pathsOf_nil, mem_pathsOf_entryIf]
      · rw [Bool.eq_iff_iff, validateDeliveryConfiguration_has]
        simp [deliveryConfigurationViolations, deliveryTypeViolations, pathsOf_append,
          pathsOf_cons, pathsOf_nil, mem_pathsOf_entryIf]
  · intro q
    simp [Number.le, Number.const]

/-- C17: for every operational-hours object, when `is_own_pickup_enabled` is true
a violation is recorded at `operational_hours.own_pickup_ready_time` if and only
if the pickup-ready time is not exactly one of "15 minutes", "30 minutes",
"1 hour", "2 hours" (a different case or surrounding blanks make it a
violation); when the flag is false no violation is recorded at that path for
any value; and all this holds whatever `is_open_24_hours` is. -/
theorem C17_pickup_ready_time (open24 : Bool) (opening closing ready : String)
    (errs : ValidationErrors) :
    ((validateOperationalHours (some ⟨open24, opening, closing, true, ready⟩) errs).has
        "operational_hours.own_pickup_ready_time" = true ↔
      errs.has "operational_hours.own_pickup_ready_time" = true ∨
        ready ∉ ["15 minutes", "30 minutes", "1 hour", "2 hours"]) ∧
    (∀ r ∈ ["15 Minutes", " 15 minutes", "1 hour ", ""],
      (validateOperationalHours (some ⟨open24, opening, closing, true, r⟩)
        errs).has "operational_hours.own_pickup_ready_time" = true) ∧
    (validateOperationalHours (some ⟨open24, opening, closing, false, ready⟩) errs).has
        "operational_hours.own_pickup_ready_time" =
      errs.has "operational_hours.own_pickup_ready_time" := by
  have key : ∀ r : String,
      ((validateOperationalHours (some ⟨open24, opening, closing, true, r⟩) errs).has
        "operational_hours.own_pickup_ready_time" = true ↔
      errs.has "operational_hours.own_pickup_ready_time" = true ∨
        r ∉ ["15 minutes", "30 minutes", "1 hour", "2 hours"]) := by
    intro r
    rw [validateOperationalHours_has]
    have h := isAllowedPickupReadyTime_iff r
    simp only [allowedPickupReadyTimes] at h
    simp only [operationalHoursViolations, pathsOf_append, List.mem_append,
      mem_pathsOf_entryIf, String.reduceEq, and_false, or_false, false_or, and_true,
      true_and, Bool.not_eq_true', ← h, Bool.not_eq_true]
  refine ⟨key ready, ?_, ?_⟩
  · intro r hr
    rw [key]
    simp only [List.mem_cons, List.mem_singleton, List.not_mem_nil, or_false] at hr
    rcases hr with rfl | rfl | rfl | rfl <;> exact Or.inr (by decide)
  · rw [Bool.eq_iff_iff, validateOperationalHours_has]
    simp [operationalHoursViolations, pathsOf_append, pathsOf_cons, pathsOf_nil,
      mem_pathsOf_entryIf]

/-- C18 (the claim as stated fails): a present delivery configuration with
`is_delivery_enabled` false, a minimum order of -1 and a fee of -1 records no
violation at `delivery_configuration.free_delivery_min_order` nor at
`delivery_configuration.delivery_fee_if_min_not_met`, although both amounts are
negative. -/
theorem C18_counterexample_delivery_disabled :
    (Number.fin (-1)).lt (Number.const 0) = true ∧
    (validateDeliveryConfiguration
      (some ⟨false, "Radius", .fin 5, [], .fin (-1), .fin (-1)⟩) NewValidationErrors).has
        "delivery_configuration.free_delivery_min_order" = false ∧
    (validateDeliveryConfiguration
      (some ⟨false, "Radius", .fin 5, [], .fin (-1), .fin (-1)⟩) NewValidationErrors).has
        "delivery_configuration.delivery_fee_if_min_not_met" = false := by
  refine ⟨by simp [Number.lt, Number.const], ?_, ?_⟩ <;>
    simp [validateDeliveryConfiguration, has_New]

/-- C18 (amended): for every present delivery configuration with
`is_delivery_enabled` true, a violation is recorded at
`delivery_configuration.free_delivery_min_order` if and only if the minimum
order is negative, and at `delivery_configuration.delivery_fee_if_min_not_met`
if and only if the fee is negative (zero is accepted), whatever the delivery
location type is. -/
theorem C18_amounts_non_negative (type : String) (radius : Number) (locations : List String)
    (minOrder fee : Number) (errs : ValidationErrors) :
    ((validateDeliveryConfiguration (some ⟨true, type, radius, locations, minOrder, fee⟩)
        errs).has "delivery_configuration.free_delivery_min_order" = true ↔
      errs.has "delivery_configuration.free_delivery_min_order" = true ∨
        minOrder.lt (Number.const 0) = true) ∧
    ((validateDeliveryConfiguration (some ⟨true, type, radius, locations, minOrder, fee⟩)
        errs).has "delivery_configuration.delivery_fee_if_min_not_met" = true ↔
      errs.has "delivery_configuration.delivery_fee_if_min_not_met" = true ∨
        fee.lt (Number.const 0) = true) ∧
    (∀ q : ℚ, (Number.fin q).lt (Number.const 0) = true ↔ q < 0) ∧
    (Number.fin 0).lt (Number.const 0) = false := by
  have htype : ∀ p : String, p = "delivery_configuration.free_delivery_min_order" ∨
      p = "delivery_configuration.delivery_fee_if_min_not_met" →
      p ∉ pathsOf (deliveryTypeViolations ⟨true, type, radius, locations, minOrder, fee⟩) := by
    intro p hp hmem
    have := (deliveryTypeViolations_sublist _).subset hmem
    rcases hp with rfl | rfl <;> revert this <;> decide
  refine ⟨?_, ?_, ?_, ?_⟩
  · rw [validateDeliveryConfiguration_has]
    have h1 := htype _ (Or.inl rfl)
    simp [deliveryConfigurationViolations, pathsOf_append, pathsOf_cons, pathsOf_nil,
      mem_pathsOf_entryIf, h1]
  · rw [validateDeliveryConfiguration_has]
    have h1 := htype _ (Or.inr rfl)
    simp [deliveryConfigurationViolations, pathsOf_append, pathsOf_cons, pathsOf_nil,
      mem_pathsOf_entryIf, h1]
  · intro q
    simp [Number.lt, Number.const]
  · simp [Number.lt, Number.const]

/-- C19: if `validateCreateStoreRequest` returns nil for a request, then all five
sub-objects of the request are present, and so are the GPS coordinates; hence
the dereference `req.BasicInformation.StoreName` on the success path of
`CreateStore` never meets an absent sub-object: `CreateStore` does not panic. -/
theorem C19_valid_request_has_all_sections (req : CreateStoreRequest)
    (h : validateCreateStoreRequest req = none) :
    (∃ b l gps o t d, req.BasicInformation = some b ∧ req.Location = some l ∧
      l.GpsCoordinates = some gps ∧ req.OperationalHours = some o ∧
      req.TaxAndPayment = some t ∧ req.DeliveryConfiguration = some d) ∧
    ∀ storeID now, CreateStore storeID now req ≠ none := by
  have hs := sections_present_of_valid req h
  refine ⟨hs, ?_⟩
  intro storeID now
  obtain ⟨b, l, gps, o, t, d, hb, -⟩ := hs
  rw [CreateStore_of_valid storeID now req b h hb]
  exact Option.some_ne_none _

/-- C19, at a concrete input: the sample request with the IFSC code
`"SBIN0001234"`, which passes validation. -/
theorem C19_valid_request_has_all_sections_witness :
    validateCreateStoreRequest (sampleRequest "SBIN0001234") = none ∧
    (∃ b l gps o t d, (sampleRequest "SBIN0001234").BasicInformation = some b ∧
      (sampleRequest "SBIN0001234").Location = some l ∧
      l.GpsCoordinates = some gps ∧ (sampleRequest "SBIN0001234").OperationalHours = some o ∧
      (sampleRequest "SBIN0001234").TaxAndPayment = some t ∧
      (sampleRequest "SBIN0001234").DeliveryConfiguration = some d) ∧
    ∀ storeID now, CreateStore storeID now (sampleRequest "SBIN0001234") ≠ none :=
  ⟨sampleRequest_valid,
    C19_valid_request_has_all_sections (sampleRequest "SBIN0001234") sampleRequest_valid⟩

/-- C20: when a delivery configuration is present with `is_delivery_enabled`
false, `validateDeliveryConfiguration` records no violation at all, whatever
the location type, radius, locations, minimum order and fee are: the
accumulator is returned as it was, also for an unknown type and negative
amounts. -/
theorem C20_disabled_delivery_records_nothing (type : String) (radius : Number)
    (locations : List String) (minOrder fee : Number) (errs : ValidationErrors) :
    validateDeliveryConfiguration (some ⟨false, type, radius, locations, minOrder, fee⟩) errs =
        errs ∧
    (validateDeliveryConfiguration (some ⟨false, type, radius, locations, minOrder, fee⟩)
        NewValidationErrors).Errors = [] ∧
    (validateDeliveryConfiguration (some ⟨false, "Moon", .fin (-1), [], .fin (-1), .fin (-1)⟩)
        NewValidationErrors).HasErrors = false := by
  refine ⟨?_, ?_, ?_⟩ <;> simp [validateDeliveryConfiguration, NewValidationErrors,
    ValidationErrors.HasErrors]

end StoreService
